import Mathlib

/-!
# serport: a shallow embedding of `serport.c`

The C functions of `src/serport.c` are rendered as Lean functions.

* `ULONG`, `UINT` and the `tcflag_t` flag words are natural numbers; the
  32-bit complement `~m` of the source is `bnot m`.
* `int`/`long` results are integers.
* `PARITY_T` is the C enumeration of `serport.h`, kept as its numeric value so
  that the `default:` arms of the source stay reachable.
* A `char` is the integer value it is promoted to when passed to `toupper`.
* The two file-scope variables `sport_fd` (a `uint8_t`) and `old_ios` live in
  `State`, next to the `World` the system calls act on.
* The constants of `<termios.h>` and `<fcntl.h>` carry their Linux
  (asm-generic) values.
* The operating system is a `World`: a table of file descriptors, the
  attributes and the limits of each terminal device, what `open` is going to
  answer, and the trace of the calls made. `tcgetattr` succeeds exactly on a
  descriptor of an open terminal. `tcsetattr` hands the attributes to the device,
  which may keep its own character size, parity enable or speed (`Device`).
* The speed code lives in the `CBAUD` bits of `c_cflag`, as in the C library of
  Linux; `cfsetispeed` and `cfsetospeed` also fill `c_ispeed` and `c_ospeed`.
* `perror` and `puts` only print diagnostics and are left out.
-/

namespace Serport

/-! ## Constants of `<termios.h>` (Linux, asm-generic) -/

def B0 : Nat := 0
def B50 : Nat := 1
def B75 : Nat := 2
def B110 : Nat := 3
def B134 : Nat := 4
def B150 : Nat := 5
def B200 : Nat := 6
def B300 : Nat := 7
def B600 : Nat := 8
def B1200 : Nat := 9
def B1800 : Nat := 10
def B2400 : Nat := 11
def B4800 : Nat := 12
def B9600 : Nat := 13
def B19200 : Nat := 14
def B38400 : Nat := 15
/-- Octal 0010001. -/
def B57600 : Nat := 4097
/-- Octal 0010002. -/
def B115200 : Nat := 4098
/-- Octal 0010003. -/
def B230400 : Nat := 4099

/-! ## `serport.h`: `PARITY_T` -/

abbrev PARITY_T := Nat

def PARITY_INVAL : PARITY_T := 0
def PARITY_NONE : PARITY_T := 1
def PARITY_ODD : PARITY_T := 2
def PARITY_EVEN : PARITY_T := 3
def PARITY_MARK : PARITY_T := 4
def PARITY_SPACE : PARITY_T := 5
def PARITY_IGNORE : PARITY_T := 6

/-! ## Conversion helpers -/

/-- The function `btoul` of `serport.c`: encoded speed constant to bits per second.
The `default:` label shares the arm of `B0`. -/
def btoul (b : Nat) : Nat :=
  if b = B0 then 0
  else if b = B50 then 50
  else if b = B75 then 75
  else if b = B110 then 110
  else if b = B134 then 134
  else if b = B150 then 150
  else if b = B200 then 200
  else if b = B300 then 300
  else if b = B600 then 600
  else if b = B1200 then 1200
  else if b = B1800 then 1800
  else if b = B2400 then 2400
  else if b = B4800 then 4800
  else if b = B9600 then 9600
  else if b = B19200 then 19200
  else if b = B38400 then 38400
  else if b = B57600 then 57600
  else if b = B115200 then 115200
  else if b = B230400 then 230400
  else 0

/-- The function `ultob` of `serport.c`: bits per second to encoded speed constant.
The `default:` label shares the arm of `0`. -/
def ultob (ul : Nat) : Nat :=
  if ul = 0 then B0
  else if ul = 50 then B50
  else if ul = 75 then B75
  else if ul = 110 then B110
  else if ul = 134 then B134
  else if ul = 150 then B150
  else if ul = 200 then B200
  else if ul = 300 then B300
  else if ul = 600 then B600
  else if ul = 1200 then B1200
  else if ul = 1800 then B1800
  else if ul = 2400 then B2400
  else if ul = 4800 then B4800
  else if ul = 9600 then B9600
  else if ul = 19200 then B19200
  else if ul = 38400 then B38400
  else if ul = 57600 then B57600
  else if ul = 115200 then B115200
  else if ul = 230400 then B230400
  else B0

/-- The rates that have a `case` label of their own in `ultob`. -/
def supportedRates : List Nat :=
  [0, 50, 75, 110, 134, 150, 200, 300, 600, 1200, 1800, 2400, 4800, 9600,
   19200, 38400, 57600, 115200, 230400]

/-- The C library function `toupper` in the "C" locale (the program never calls
`setlocale`): the letters `a`..`z` (97..122) move to `A`..`Z`, every other
value is returned as it is. -/
def toupper (c : Int) : Int :=
  if 97 ≤ c ∧ c ≤ 122 then c - 32 else c

/-- The function `ctop` of `serport.c`. The `case` labels are the character
constants 'E' (69), 'O' (79), 'M' (77), 'S' (83), 'N' (78), 'X' (88). -/
def ctop (c : Int) : PARITY_T :=
  let u := toupper c
  if u = 69 then PARITY_EVEN
  else if u = 79 then PARITY_ODD
  else if u = 77 then PARITY_MARK
  else if u = 83 then PARITY_SPACE
  else if u = 78 then PARITY_NONE
  else if u = 88 then PARITY_IGNORE
  else PARITY_INVAL

/-- The function `ptoc` of `serport.c`; the result is the value of the returned
character: 'N' (78), 'O' (79), 'E' (69), 'M' (77), 'S' (83), 'X' (88), and
'I' (73) for `PARITY_INVAL` and in the `default:` arm. -/
def ptoc (p : PARITY_T) : Int :=
  if p = PARITY_NONE then 78
  else if p = PARITY_ODD then 79
  else if p = PARITY_EVEN then 69
  else if p = PARITY_MARK then 77
  else if p = PARITY_SPACE then 83
  else if p = PARITY_IGNORE then 88
  else 73

/-- The table of the specification for `parityCharToMode`, written from its
words: a case-insensitive single-letter mapping E, O, M, S, N, X and `Invalid`
for anything else. -/
def parityCharToMode_spec (c : Int) : PARITY_T :=
  if c = 69 ∨ c = 101 then PARITY_EVEN
  else if c = 79 ∨ c = 111 then PARITY_ODD
  else if c = 77 ∨ c = 109 then PARITY_MARK
  else if c = 83 ∨ c = 115 then PARITY_SPACE
  else if c = 78 ∨ c = 110 then PARITY_NONE
  else if c = 88 ∨ c = 120 then PARITY_IGNORE
  else PARITY_INVAL

/-- The six parity letters 'E', 'O', 'M', 'S', 'N', 'X'. -/
def parityLetters : List Int := [69, 79, 77, 83, 78, 88]

/-! ## More constants of `<termios.h>` and `<fcntl.h>` (Linux, asm-generic) -/

/-- All 32 bits of a `tcflag_t`. -/
def FLAG_MAX : Nat := 4294967295

/-- The complement `~m` of the source, taken in a 32-bit `tcflag_t`. -/
def bnot (m : Nat) : Nat := FLAG_MAX ^^^ m

-- c_iflag
def IGNBRK : Nat := 1
def BRKINT : Nat := 2
def PARMRK : Nat := 8
def INPCK : Nat := 16
def ISTRIP : Nat := 32
def INLCR : Nat := 64
def IGNCR : Nat := 128
def ICRNL : Nat := 256
def IXON : Nat := 1024
/-- Octal 020000000000: the bit of `c_iflag` in which the C library notes an input
speed of `B0`; it is not passed to the device. -/
def IBAUD0 : Nat := 2147483648
-- c_oflag
def OPOST : Nat := 1
-- c_lflag
def ISIG : Nat := 1
def ICANON : Nat := 2
def ECHO : Nat := 8
def ECHONL : Nat := 64
def IEXTEN : Nat := 32768
-- c_cflag
def CSIZE : Nat := 48
def CS5 : Nat := 0
def CS6 : Nat := 16
def CS7 : Nat := 32
def CS8 : Nat := 48
def CSTOPB : Nat := 64
def CREAD : Nat := 128
def PARENB : Nat := 256
def PARODD : Nat := 512
def CLOCAL : Nat := 2048
/-- Octal 0010017: the bits of `c_cflag` that hold the speed code. -/
def CBAUD : Nat := 4111
/-- Octal 0010000: the bit of the extended speed codes, part of `CBAUD`. -/
def CBAUDEX : Nat := 4096
/-- Octal 020000000000. -/
def CRTSCTS : Nat := 2147483648
-- c_cc subscripts
def VTIME : Nat := 5
def VMIN : Nat := 6
-- open(2) flags
def O_RDWR : Nat := 2
def O_NOCTTY : Nat := 256
def O_NDELAY : Nat := 2048

/-! ## `struct termios` and the C library calls that only touch the structure -/

/-- The attribute structure `struct termios` of the C library, with its members
`c_ispeed` and `c_ospeed`. -/
structure termios where
  c_iflag : Nat
  c_oflag : Nat
  c_cflag : Nat
  c_lflag : Nat
  c_cc : List Nat
  c_ispeed : Nat
  c_ospeed : Nat
deriving DecidableEq

/-- A zero-filled `struct termios`, the initial value of a file-scope variable. -/
def termios.zero : termios :=
  { c_iflag := 0, c_oflag := 0, c_cflag := 0, c_lflag := 0,
    c_cc := List.replicate 32 0, c_ispeed := 0, c_ospeed := 0 }

/-- The speed codes the C library accepts: `B0`..`B38400` (0..15) and the extended
codes (octal 0010000..0010017); every other value is refused with `EINVAL`. -/
def validSpeed (speed : Nat) : Bool :=
  decide (speed ≤ 15) || (decide (4096 ≤ speed) && decide (speed ≤ 4111))

/-- The C library call `cfsetispeed`: result and updated structure. A speed of
`B0` is noted in bit `IBAUD0` of `c_iflag`; any other speed clears that bit and is
written into the speed bits of `c_cflag`. -/
def cfsetispeed (t : termios) (speed : Nat) : Int × termios :=
  if validSpeed speed then
    if speed = 0 then
      (0, { t with c_ispeed := speed, c_iflag := t.c_iflag ||| IBAUD0 })
    else
      (0, { t with c_ispeed := speed, c_iflag := t.c_iflag &&& bnot IBAUD0,
                   c_cflag := (t.c_cflag &&& bnot (CBAUD ||| CBAUDEX)) ||| speed })
  else (-1, t)

/-- The C library call `cfsetospeed`: result and updated structure. The speed is
written into the speed bits of `c_cflag`. -/
def cfsetospeed (t : termios) (speed : Nat) : Int × termios :=
  if validSpeed speed then
    (0, { t with c_ospeed := speed,
                 c_cflag := (t.c_cflag &&& bnot (CBAUD ||| CBAUDEX)) ||| speed })
  else (-1, t)

/-- The C library call `cfgetospeed`: the speed bits of `c_cflag`. -/
def cfgetospeed (t : termios) : Nat := t.c_cflag &&& (CBAUD ||| CBAUDEX)

/-- The C library call `cfmakeraw`, as the comment in `sport_open` quotes it from
the manual page; the library also sets `c_cc[VMIN] = 1` and `c_cc[VTIME] = 0`. -/
def cfmakeraw (t : termios) : termios :=
  { t with
    c_iflag := t.c_iflag &&&
      bnot (IGNBRK ||| BRKINT ||| PARMRK ||| ISTRIP ||| INLCR ||| IGNCR ||| ICRNL ||| IXON)
    c_oflag := t.c_oflag &&& bnot OPOST
    c_lflag := t.c_lflag &&& bnot (ECHO ||| ECHONL ||| ICANON ||| ISIG ||| IEXTEN)
    c_cflag := (t.c_cflag &&& bnot (CSIZE ||| PARENB)) ||| CS8
    c_cc := (t.c_cc.set VMIN 1).set VTIME 0 }

/-! ## The operating system: descriptors, devices and the calls made -/

/-- What an open file descriptor refers to: a terminal device, named by its
number, or something that is not a terminal. -/
inductive File where
  | tty (dev : Nat)
  | other
deriving DecidableEq

/-- A system call, as recorded in the trace of the world. -/
inductive Call where
  | os_open (path : List Char) (flags : Nat)
  | os_close (fd : Nat)
  | tcgetattr (fd : Nat)
  | tcsetattr (fd : Nat) (t : termios)
  | tcdrain (fd : Nat)
  | tcflush (fd : Nat)
deriving DecidableEq

/-- What a terminal device does not take from a write of its attributes.
* `fixedSize`: the device keeps its character size (a pseudo-terminal stays at
  eight bits);
* `fixedParity`: the device keeps its parity enable bit (a pseudo-terminal never
  enables parity);
* `badSpeeds`: speed codes the device cannot run at (a 16550A port cannot do
  230400); a write that asks for one of them leaves the speed as it is. -/
structure Device where
  fixedSize : Bool
  fixedParity : Bool
  badSpeeds : List Nat

/-- A device that takes every attribute as written. -/
def Device.plain : Device := { fixedSize := false, fixedParity := false, badSpeeds := [] }

/-- A pseudo-terminal: always eight bits, never parity. -/
def Device.pty : Device := { fixedSize := true, fixedParity := true, badSpeeds := [] }

/-- A serial port of the 16550A kind: at most 115200 bits per second. -/
def Device.uart16550 : Device :=
  { fixedSize := false, fixedParity := false, badSpeeds := [B230400] }

/-- Bit by bit: the bit of `cur` where `m` has a bit, the bit of `req` elsewhere. -/
def select (m cur req : Nat) : Nat := req ^^^ ((req ^^^ cur) &&& m)

/-- Whether the device takes the speed code of the attributes `req`; `B0` (hang
up) is always taken. -/
def Device.speedOk (dv : Device) (req : termios) : Bool :=
  decide (req.c_cflag &&& (CBAUD ||| CBAUDEX) = B0) ||
    !(dv.badSpeeds.contains (req.c_cflag &&& (CBAUD ||| CBAUDEX)))

/-- The bits of `c_cflag` the device keeps as they are when `req` is written. -/
def Device.kept (dv : Device) (req : termios) : Nat :=
  (if dv.fixedSize then CSIZE else 0) ||| (if dv.fixedParity then PARENB else 0) |||
    (if dv.speedOk req then 0 else CBAUD ||| CBAUDEX)

/-- The attributes a device holds after `req` has been written over `cur`: `req`,
except for the bits the device keeps, for bit `IBAUD0`, which the C library does
not pass on, and for the two speed members when the speed is not taken. -/
def Device.store (dv : Device) (cur req : termios) : termios :=
  { req with
    c_iflag := select IBAUD0 cur.c_iflag req.c_iflag
    c_cflag := select (dv.kept req) cur.c_cflag req.c_cflag
    c_ispeed := if dv.speedOk req then req.c_ispeed else cur.c_ispeed
    c_ospeed := if dv.speedOk req then req.c_ospeed else cur.c_ospeed }

/-- The result of `tcsetattr` on a terminal: -1 (`EINVAL`) when a character size
other than `CS5` was asked for and the device did not take it, 0 otherwise, also
when the device kept its parity enable bit or its speed. -/
def Device.result (dv : Device) (cur req : termios) : Int :=
  if req.c_cflag &&& CSIZE ≠ 0 ∧
      (dv.store cur req).c_cflag &&& CSIZE ≠ req.c_cflag &&& CSIZE then -1 else 0

/-- The state of the operating system as the program sees it.
* `fdtab fd` is what descriptor `fd` refers to, `none` when it is closed;
* `attrs dev` are the attributes of terminal device `dev`;
* `limits dev` says what device `dev` does not take from a write;
* `opener path flags` is what `open(path, flags)` is going to do: fail (`none`)
  or hand out a descriptor for a file;
* `trace` lists the system calls made so far, oldest first. -/
structure World where
  fdtab : Nat → Option File
  attrs : Nat → termios
  limits : Nat → Device
  opener : List Char → Nat → Option (Nat × File)
  trace : List Call

/-- The terminal device behind a descriptor, if it is an open terminal. -/
def World.ttyOf (w : World) (fd : Nat) : Option Nat :=
  match w.fdtab fd with
  | some (File.tty d) => some d
  | _ => none

/-- The system call `open`: the result (a descriptor, or -1) and the new world. -/
def os_open (path : List Char) (flags : Nat) (w : World) : Int × World :=
  match w.opener path flags with
  | some (fd, f) =>
      ((fd : Int), { w with fdtab := Function.update w.fdtab fd (some f),
                            trace := w.trace ++ [Call.os_open path flags] })
  | none => (-1, { w with trace := w.trace ++ [Call.os_open path flags] })

/-- The system call `close`. -/
def os_close (fd : Nat) (w : World) : Int × World :=
  match w.fdtab fd with
  | some _ =>
      (0, { w with fdtab := Function.update w.fdtab fd none,
                   trace := w.trace ++ [Call.os_close fd] })
  | none => (-1, { w with trace := w.trace ++ [Call.os_close fd] })

/-- The call `tcgetattr(fd, &buf)`: the attributes read (`none` when the call
fails, which leaves `buf` alone) and the new world. It succeeds exactly on a
descriptor of an open terminal. -/
def tcgetattr (fd : Nat) (w : World) : Option termios × World :=
  ((w.ttyOf fd).map w.attrs, { w with trace := w.trace ++ [Call.tcgetattr fd] })

/-- The call `tcsetattr(fd, TCSANOW, &t)`: result and new world. On a descriptor of
an open terminal the device is handed the attributes and holds what
`Device.store` says afterwards, also when the result is -1. -/
def tcsetattr (fd : Nat) (t : termios) (w : World) : Int × World :=
  match w.ttyOf fd with
  | some d =>
      ((w.limits d).result (w.attrs d) t,
        { w with attrs := Function.update w.attrs d ((w.limits d).store (w.attrs d) t),
                 trace := w.trace ++ [Call.tcsetattr fd t] })
  | none => (-1, { w with trace := w.trace ++ [Call.tcsetattr fd t] })

/-- The call `tcdrain(fd)`. -/
def tcdrain (fd : Nat) (w : World) : Int × World :=
  (if (w.ttyOf fd).isSome then 0 else -1, { w with trace := w.trace ++ [Call.tcdrain fd] })

/-- The call `tcflush(fd, TCIOFLUSH)`. -/
def tcflush (fd : Nat) (w : World) : Int × World :=
  (if (w.ttyOf fd).isSome then 0 else -1, { w with trace := w.trace ++ [Call.tcflush fd] })

/-- The C library call `strlen` on a string given by its characters: the number of
characters before the first NUL. -/
def strlen (str : List Char) : Nat :=
  (str.takeWhile (fun c => c != Char.ofNat 0)).length

/-! ## The program state and the port functions of `serport.c` -/

/-- The file-scope variables `sport_fd` (a `uint8_t`, so a value below 256) and
`old_ios`, together with the world. -/
structure State where
  sport_fd : Nat
  old_ios : termios
  world : World

/-- Conversion of an `int` to `uint8_t`, as in the assignment `sport_fd = open(...)`. -/
def toUint8 (r : Int) : Nat := (r % 256).toNat

/-- The function `set_baudrate` of `serport.c`. -/
def set_baudrate (baud : Nat) (s : State) : Int × State :=
  if (s.sport_fd : Int) = -1 then (-1, s)
  else
    let g := tcgetattr s.sport_fd s.world
    match g.1 with
    | none => (-1, { s with world := g.2 })
    | some tios =>
      let baud_val := ultob baud
      let i := cfsetispeed tios baud_val
      if i.1 ≠ 0 then (-1, { s with world := g.2 })
      else
        let o := cfsetospeed i.2 baud_val
        if o.1 ≠ 0 then (-1, { s with world := g.2 })
        else
          let w := tcsetattr s.sport_fd o.2 g.2
          if w.1 ≠ 0 then (-1, { s with world := w.2 })
          else (0, { s with world := w.2 })

/-- The function `get_baudrate` of `serport.c`. The result of `tcgetattr` is not
looked at; the call reads into `old_ios`. -/
def get_baudrate (s : State) : Int × State :=
  let g := tcgetattr s.sport_fd s.world
  let old_ios := match g.1 with
    | some t => t
    | none => s.old_ios
  let baudrate := cfgetospeed old_ios
  ((btoul baudrate : Nat), { s with old_ios := old_ios, world := g.2 })

/-- The function `set_databits` of `serport.c`. -/
def set_databits (bits : Nat) (s : State) : Int × State :=
  if (s.sport_fd : Int) = -1 then (-1, s)
  else
    let g := tcgetattr s.sport_fd s.world
    match g.1 with
    | none => (-1, { s with world := g.2 })
    | some tios =>
      let cs_mask : Option Nat :=
        if bits = 5 then some CS5
        else if bits = 6 then some CS6
        else if bits = 7 then some CS7
        else if bits = 8 then some CS8
        else none
      match cs_mask with
      | none => (-1, { s with world := g.2 })
      | some cs_mask =>
        let tios := { tios with c_cflag := tios.c_cflag &&& bnot CSIZE }
        let tios := { tios with c_cflag := tios.c_cflag ||| cs_mask }
        let w := tcsetattr s.sport_fd tios g.2
        if w.1 ≠ 0 then (-1, { s with world := w.2 })
        else (0, { s with world := w.2 })

/-- The function `get_databits` of `serport.c`. -/
def get_databits (s : State) : Int × State :=
  if (s.sport_fd : Int) = -1 then (-1, s)
  else
    let g := tcgetattr s.sport_fd s.world
    match g.1 with
    | none => (-1, { s with world := g.2 })
    | some tios =>
      let f := tios.c_cflag &&& CSIZE
      let db : Int :=
        if f = CS5 then 5
        else if f = CS6 then 6
        else if f = CS7 then 7
        else if f = CS8 then 8
        else -1
      (db, { s with world := g.2 })

/-- The function `set_stopbits` of `serport.c`. -/
def set_stopbits (stopbits : Nat) (s : State) : Int × State :=
  if (s.sport_fd : Int) = -1 then (-1, s)
  else
    let g := tcgetattr s.sport_fd s.world
    match g.1 with
    | none => (-1, { s with world := g.2 })
    | some tios =>
      let tios' : Option termios :=
        if stopbits = 1 then some { tios with c_cflag := tios.c_cflag &&& bnot CSTOPB }
        else if stopbits = 2 then some { tios with c_cflag := tios.c_cflag ||| CSTOPB }
        else none
      match tios' with
      | none => (-1, { s with world := g.2 })
      | some tios =>
        let w := tcsetattr s.sport_fd tios g.2
        if w.1 ≠ 0 then (-1, { s with world := w.2 })
        else (0, { s with world := w.2 })

/-- The function `get_stopbits` of `serport.c`. -/
def get_stopbits (s : State) : Int × State :=
  if (s.sport_fd : Int) = -1 then (-1, s)
  else
    let g := tcgetattr s.sport_fd s.world
    match g.1 with
    | none => (-1, { s with world := g.2 })
    | some tios =>
      if tios.c_cflag &&& CSTOPB ≠ 0 then (2, { s with world := g.2 })
      else (1, { s with world := g.2 })

/-- What the `switch` of `set_parity` does with the attributes it has read. -/
inductive ParityArm where
  | apply (t : termios)
  | ret (r : Int)

/-- The `switch` of `set_parity`: the arms for space/none, even, odd and mark
fall out of the `switch` with the (possibly changed) attributes, the arm for
ignore returns 0 and the arm for invalid and `default:` returns -1. -/
def parity_switch (parity : PARITY_T) (tios : termios) : ParityArm :=
  if parity = PARITY_SPACE ∨ parity = PARITY_NONE then
    let tios := { tios with c_cflag := tios.c_cflag &&& bnot PARENB }
    let tios := { tios with c_iflag := tios.c_iflag &&& bnot INPCK }
    ParityArm.apply tios
  else if parity = PARITY_EVEN then
    let tios := { tios with c_cflag := tios.c_cflag &&& bnot PARODD }
    let tios := { tios with c_cflag := tios.c_cflag ||| PARENB }
    let tios := { tios with c_iflag := tios.c_iflag &&& bnot INPCK }
    ParityArm.apply tios
  else if parity = PARITY_ODD then
    let tios := { tios with c_cflag := tios.c_cflag ||| PARODD }
    let tios := { tios with c_cflag := tios.c_cflag ||| PARENB }
    let tios := { tios with c_iflag := tios.c_iflag &&& bnot INPCK }
    ParityArm.apply tios
  else if parity = PARITY_MARK then ParityArm.apply tios
  else if parity = PARITY_IGNORE then ParityArm.ret 0
  else ParityArm.ret (-1)

/-- The function `set_parity` of `serport.c`. -/
def set_parity (parity : PARITY_T) (s : State) : Int × State :=
  if (s.sport_fd : Int) = -1 then (-1, s)
  else
    let g := tcgetattr s.sport_fd s.world
    match g.1 with
    | none => (-1, { s with world := g.2 })
    | some tios =>
      match parity_switch parity tios with
      | ParityArm.ret r => (r, { s with world := g.2 })
      | ParityArm.apply tios =>
        let w := tcsetattr s.sport_fd tios g.2
        if w.1 ≠ 0 then (-1, { s with world := w.2 })
        else (0, { s with world := w.2 })

/-- The function `get_parity` of `serport.c`. -/
def get_parity (s : State) : PARITY_T × State :=
  if (s.sport_fd : Int) = -1 then (PARITY_NONE, s)
  else
    let g := tcgetattr s.sport_fd s.world
    match g.1 with
    | none => (PARITY_NONE, { s with world := g.2 })
    | some tios =>
      if tios.c_cflag &&& PARENB ≠ 0 then
        if tios.c_cflag &&& PARODD ≠ 0 then (PARITY_ODD, { s with world := g.2 })
        else (PARITY_EVEN, { s with world := g.2 })
      else (PARITY_NONE, { s with world := g.2 })

/-- The function `sport_open` of `serport.c`. -/
def sport_open (port_name : List Char) (speed dbits : Nat) (par : PARITY_T) (sbits : Nat)
    (nblock : Bool) (s : State) : Int × State :=
  if strlen port_name = 0 then (-1, s)
  else
    let flags := O_RDWR ||| O_NOCTTY
    let flags := if !nblock then flags ||| O_NDELAY else flags
    let o := os_open port_name flags s.world
    let s := { s with sport_fd := toUint8 o.1, world := o.2 }
    if (s.sport_fd : Int) = -1 then (-1, s)
    else
      let g := tcgetattr s.sport_fd s.world
      match g.1 with
      | none => (-1, { s with world := g.2 })
      | some saved =>
        let s := { s with old_ios := saved, world := g.2 }
        let g := tcgetattr s.sport_fd s.world
        match g.1 with
        | none => (-1, { s with world := g.2 })
        | some tios =>
          let tios := cfmakeraw tios
          let tios := { tios with c_cflag := tios.c_cflag ||| (CREAD ||| CLOCAL) }
          let tios := { tios with c_cflag := tios.c_cflag &&& bnot CRTSCTS }
          let tios := { tios with c_iflag := tios.c_iflag ||| ICRNL }
          let tios := { tios with c_lflag := tios.c_lflag &&& bnot ICANON }
          let w := tcsetattr s.sport_fd tios g.2
          let s := { s with world := w.2 }
          if w.1 ≠ 0 then (-1, s)
          else
            let r := set_baudrate speed s
            if r.1 ≠ 0 then (-1, r.2)
            else
              let r := set_databits dbits r.2
              if r.1 ≠ 0 then (-1, r.2)
              else
                let r := set_parity par r.2
                if r.1 ≠ 0 then (-1, r.2)
                else
                  let r := set_stopbits sbits r.2
                  if r.1 ≠ 0 then (-1, r.2)
                  else ((r.2.sport_fd : Int), r.2)

/-- The function `sport_close` of `serport.c`. -/
def sport_close (s : State) : Int × State :=
  let c := os_close s.sport_fd s.world
  if c.1 ≠ 0 then (-1, { s with world := c.2 })
  else (0, { s with world := c.2 })

/-- The function `sport_flush` of `serport.c`. -/
def sport_flush (s : State) : Int × State :=
  let d := tcdrain s.sport_fd s.world
  (d.1, { s with world := d.2 })

/-- The function `sport_clear` of `serport.c`. -/
def sport_clear (s : State) : Int × State :=
  let d := tcflush s.sport_fd s.world
  (d.1, { s with world := d.2 })

/-! ## Auxiliary notions for stating the properties -/

/-- The state after a read of the attributes of device `d` through the stored
descriptor and a write of `req`: the device holds what it stores of `req` and the
trace has gained the read and the write. -/
def State.wrote (s : State) (d : Nat) (req : termios) : State :=
  { s with world :=
      { s.world with
        attrs := Function.update s.world.attrs d
          ((s.world.limits d).store (s.world.attrs d) req)
        trace := s.world.trace ++
          [Call.tcgetattr s.sport_fd, Call.tcsetattr s.sport_fd req] } }

/-- The state after a read-modify-write of the attributes of device `d` through
the stored descriptor that the device took as written: the device holds `f` of
its former attributes and the trace has gained the read and the write. -/
def State.modify (s : State) (d : Nat) (f : termios → termios) : State :=
  { s with world :=
      { s.world with
        attrs := Function.update s.world.attrs d (f (s.world.attrs d))
        trace := s.world.trace ++
          [Call.tcgetattr s.sport_fd, Call.tcsetattr s.sport_fd (f (s.world.attrs d))] } }

/-- The state after a read of the attributes through the stored descriptor. -/
def State.read (s : State) : State :=
  { s with world := { s.world with trace := s.world.trace ++ [Call.tcgetattr s.sport_fd] } }

/-- The character-size mask `set_databits` selects for a number of data bits. -/
def csMask (bits : Nat) : Nat :=
  if bits = 5 then CS5 else if bits = 6 then CS6 else if bits = 7 then CS7 else CS8

/-- The state `sport_open` is in once the result of `open` has been assigned to
`sport_fd`. -/
def afterOpen (port_name : List Char) (nblock : Bool) (s : State) : State :=
  { s with
    sport_fd := toUint8 (os_open port_name
      (if !nblock then O_RDWR ||| O_NOCTTY ||| O_NDELAY else O_RDWR ||| O_NOCTTY) s.world).1
    world := (os_open port_name
      (if !nblock then O_RDWR ||| O_NOCTTY ||| O_NDELAY else O_RDWR ||| O_NOCTTY) s.world).2 }

/-- The attributes `sport_open` writes before it applies the four line parameters:
raw mode, then receiver on, modem lines ignored, no hardware flow control,
CR to NL on input, no canonical input. -/
def rawAttrs (t : termios) : termios :=
  let tios := cfmakeraw t
  let tios := { tios with c_cflag := tios.c_cflag ||| (CREAD ||| CLOCAL) }
  let tios := { tios with c_cflag := tios.c_cflag &&& bnot CRTSCTS }
  let tios := { tios with c_iflag := tios.c_iflag ||| ICRNL }
  { tios with c_lflag := tios.c_lflag &&& bnot ICANON }

/-- The state `sport_open` is in after its two attribute reads and the write of
`rawAttrs`, when the stored descriptor is terminal device `d`: `old_ios` holds
what was read and the device holds what it stores of `rawAttrs`. -/
def rawState (s : State) (d : Nat) : State :=
  { s with
    old_ios := s.world.attrs d
    world :=
      { s.world with
        attrs := Function.update s.world.attrs d
          ((s.world.limits d).store (s.world.attrs d) (rawAttrs (s.world.attrs d)))
        trace := s.world.trace ++
          [Call.tcgetattr s.sport_fd, Call.tcgetattr s.sport_fd,
           Call.tcsetattr s.sport_fd (rawAttrs (s.world.attrs d))] } }

/-- The attributes `set_baudrate` hands to `tcsetattr`. -/
def baudFn (baud : Nat) (t : termios) : termios :=
  (cfsetospeed (cfsetispeed t (ultob baud)).2 (ultob baud)).2

/-- The attributes `set_databits` writes back for a valid number of data bits. -/
def dataFn (bits : Nat) (t : termios) : termios :=
  { t with c_cflag := (t.c_cflag &&& bnot CSIZE) ||| csMask bits }

/-- The attributes `set_parity` writes back in the arms that reach the write. -/
def parityFn (parity : PARITY_T) (t : termios) : termios :=
  match parity_switch parity t with
  | ParityArm.apply t' => t'
  | ParityArm.ret _ => t

/-- The attributes `set_stopbits` writes back for one or two stop bits. -/
def stopFn (stopbits : Nat) (t : termios) : termios :=
  if stopbits = 1 then { t with c_cflag := t.c_cflag &&& bnot CSTOPB }
  else { t with c_cflag := t.c_cflag ||| CSTOPB }

/-- The number of data bits `get_databits` reads from a control-flag word. -/
def dataBitsOf (c : Nat) : Int :=
  if c &&& CSIZE = CS5 then 5
  else if c &&& CSIZE = CS6 then 6
  else if c &&& CSIZE = CS7 then 7
  else if c &&& CSIZE = CS8 then 8
  else -1

/-- The parity `get_parity` reads from a control-flag word. -/
def parityOf (c : Nat) : PARITY_T :=
  if c &&& PARENB ≠ 0 then
    if c &&& PARODD ≠ 0 then PARITY_ODD else PARITY_EVEN
  else PARITY_NONE

/-- The number of stop bits `get_stopbits` reads from a control-flag word. -/
def stopBitsOf (c : Nat) : Int :=
  if c &&& CSTOPB ≠ 0 then 2 else 1

/-- Whether a call is a `close`. -/
def Call.isClose : Call → Bool
  | Call.os_close _ => true
  | _ => false

/-- The parity modes for which the `switch` of `set_parity` does not return -1. -/
def acceptedParities : List PARITY_T :=
  [PARITY_NONE, PARITY_ODD, PARITY_EVEN, PARITY_MARK, PARITY_SPACE, PARITY_IGNORE]

/-- The stored descriptor, the descriptor table and the limits of the devices are
in `s'` what they are in `s`. -/
def SameHandle (s s' : State) : Prop :=
  s'.sport_fd = s.sport_fd ∧ s'.world.fdtab = s.world.fdtab ∧
    s'.world.limits = s.world.limits

/-- The program state at start-up in world `w`: file-scope variables are
zero-initialised, so `sport_fd` is 0. -/
def initState (w : World) : State :=
  { sport_fd := 0, old_ios := termios.zero, world := w }

/-- A sample world of an interactive process: descriptors 0, 1 and 2 are terminal
device 0, nothing else is open, and `open` fails. -/
def stdinWorld : World :=
  { fdtab := (fun fd => if fd ≤ 2 then some (File.tty 0) else none)
    attrs := (fun _ => termios.zero)
    limits := (fun _ => Device.plain)
    opener := (fun _ _ => none)
    trace := [] }

/-- A sample world with no open descriptor, in which `open` fails. -/
def emptyWorld : World :=
  { fdtab := (fun _ => none)
    attrs := (fun _ => termios.zero)
    limits := (fun _ => Device.plain)
    opener := (fun _ _ => none)
    trace := [] }

/-- A sample world in which descriptor 255 is terminal device 0, nothing else is
open, and `open` fails. -/
def fd255World : World :=
  { fdtab := (fun fd => if fd = 255 then some (File.tty 0) else none)
    attrs := (fun _ => termios.zero)
    limits := (fun _ => Device.plain)
    opener := (fun _ _ => none)
    trace := [] }

/-- A sample world: descriptor 3 is terminal device 0, every other descriptor is
closed, the device attributes are zero-filled, and `open` hands out descriptor 4
for the same device. -/
def demoWorld : World :=
  { fdtab := (fun fd => if fd = 3 then some (File.tty 0) else none)
    attrs := (fun _ => termios.zero)
    limits := (fun _ => Device.plain)
    opener := (fun _ _ => some (4, File.tty 0))
    trace := [] }

/-- A sample state: the stored descriptor is 3 in `demoWorld`. -/
def demoState : State :=
  { sport_fd := 3, old_ios := termios.zero, world := demoWorld }

/-- The attributes of a terminal in its usual line mode: CR to NL, output
processing, eight bits, receiver on, 38400 bits per second, signals, canonical
input and echo. -/
def cookedAttrs : termios :=
  { c_iflag := ICRNL, c_oflag := OPOST, c_cflag := CS8 ||| CREAD ||| B38400,
    c_lflag := ISIG ||| ICANON ||| ECHO, c_cc := List.replicate 32 0,
    c_ispeed := B38400, c_ospeed := B38400 }

/-- A sample state on a device with the limits `dv`: descriptor 3, the stored one,
is terminal device 0 in line mode, and `open` hands out descriptor 4 for the same
device. -/
def stateOn (dv : Device) : State :=
  { sport_fd := 3, old_ios := termios.zero,
    world :=
      { fdtab := (fun fd => if fd = 3 then some (File.tty 0) else none)
        attrs := (fun _ => cookedAttrs)
        limits := (fun _ => dv)
        opener := (fun _ _ => some (4, File.tty 0))
        trace := [] } }

/-- A sample world of a process with many open files: descriptor 44 is terminal
device 0, the other descriptors below 300 are open on files that are not
terminals, and `open` hands out descriptor 300 for terminal device 1; both
devices are in line mode and take every attribute as written. -/
def manyFilesWorld : World :=
  { fdtab := (fun fd => if fd = 44 then some (File.tty 0)
                        else if fd < 300 then some File.other else none)
    attrs := (fun _ => cookedAttrs)
    limits := (fun _ => Device.plain)
    opener := (fun _ _ => some (300, File.tty 1))
    trace := [] }

/-! ## Theorems on the conversion helpers -/

/-- Decoding the code of a supported rate gives the rate back. -/
theorem btoul_ultob (r : Nat) (h : r ∈ supportedRates) : btoul (ultob r) = r := by
  simp only [supportedRates, List.mem_cons, List.mem_singleton, List.not_mem_nil,
    or_false] at h
  rcases h with h | h | h | h | h | h | h | h | h | h | h | h | h | h | h | h | h | h | h <;>
    subst h <;> decide

/-- A rate without a `case` label of its own falls to the `default:` arm of `ultob`. -/
theorem ultob_not_mem (r : Nat) (h : r ∉ supportedRates) : ultob r = B0 := by
  simp only [supportedRates, List.mem_cons, List.mem_singleton, List.not_mem_nil,
    or_false, not_or] at h
  obtain ⟨h0, h1, h2, h3, h4, h5, h6, h7, h8, h9, h10, h11, h12, h13, h14, h15, h16,
    h17, h18⟩ := h
  simp [ultob, *]

/-- C1: for every rate `r` of the 19 supported rates, `btoul (ultob r) = r`. -/
theorem btoul_ultob_roundtrip (r : Nat) (h : r ∈ supportedRates) :
    btoul (ultob r) = r :=
  btoul_ultob r h

theorem btoul_ultob_roundtrip_witness :
    9600 ∈ supportedRates ∧ btoul (ultob 9600) = 9600 :=
  ⟨by decide, btoul_ultob_roundtrip 9600 (by decide)⟩

/-- C2: every rate that is not one of the 19 supported rates is encoded like the
rate 0, that is as `B0`. -/
theorem ultob_unsupported (r : Nat) (h : r ∉ supportedRates) :
    ultob r = ultob 0 ∧ ultob r = B0 :=
  ⟨ultob_not_mem r h, ultob_not_mem r h⟩

theorem ultob_unsupported_witness :
    9601 ∉ supportedRates ∧ ultob 9601 = ultob 0 ∧ ultob 9601 = B0 :=
  ⟨by decide, ultob_unsupported 9601 (by decide)⟩

/-- An upper-case letter is the image under `toupper` of itself and of its
lower-case form only. -/
theorem toupper_eq_iff (c k : Int) (hk : 65 ≤ k ∧ k ≤ 90) :
    toupper c = k ↔ c = k ∨ c = k + 32 := by
  unfold toupper
  split_ifs <;> omega

/-- C7: `ctop` is the case-insensitive table E, O, M, S, N, X of the
specification and `PARITY_INVAL` elsewhere; `ctop 'n' = ctop 'N' = PARITY_NONE`
and `ctop 'q' = PARITY_INVAL`. -/
theorem ctop_table :
    (∀ c : Int, ctop c = parityCharToMode_spec c) ∧
    ctop 110 = PARITY_NONE ∧ ctop 78 = PARITY_NONE ∧ ctop 113 = PARITY_INVAL := by
  refine ⟨?_, by simp [ctop, toupper, PARITY_NONE], by simp [ctop, toupper, PARITY_NONE],
    by simp [ctop, toupper, PARITY_INVAL]⟩
  intro c
  simp only [ctop, parityCharToMode_spec, toupper_eq_iff c 69 (by omega),
    toupper_eq_iff c 79 (by omega), toupper_eq_iff c 77 (by omega),
    toupper_eq_iff c 83 (by omega), toupper_eq_iff c 78 (by omega),
    toupper_eq_iff c 88 (by omega)]
  norm_num

/-- C8: `ptoc (ctop c) = c` for each of the six letters E, O, M, S, N, X, and
`ptoc (ctop c) = 'I'` for every character that `ctop` maps to `PARITY_INVAL`. -/
theorem ptoc_ctop (c : Int) :
    (c ∈ parityLetters → ptoc (ctop c) = c) ∧
    (ctop c = PARITY_INVAL → ptoc (ctop c) = 73) := by
  constructor
  · intro h
    simp only [parityLetters, List.mem_cons, List.mem_singleton, List.not_mem_nil,
      or_false] at h
    rcases h with h | h | h | h | h | h <;> subst h <;> decide
  · intro h
    rw [h]
    decide

theorem ptoc_ctop_witness :
    ((69 : Int) ∈ parityLetters ∧ ptoc (ctop 69) = 69) ∧
    (ctop 113 = PARITY_INVAL ∧ ptoc (ctop 113) = 73) :=
  ⟨⟨by decide, (ptoc_ctop 69).1 (by decide)⟩, ⟨by decide, (ptoc_ctop 113).2 (by decide)⟩⟩

/-! ## Bit-level facts on flag words -/

theorem sub_bit {k m : Nat} (h : k &&& m = k) (i : Nat) :
    k.testBit i = true → m.testBit i = true := by
  intro hk
  have := congrArg (fun x => x.testBit i) h
  simp only [Nat.testBit_and, hk, Bool.true_and] at this
  exact this

theorem disj_bit {k m : Nat} (h : k &&& m = 0) (i : Nat) :
    k.testBit i = true → m.testBit i = false := by
  intro hk
  have := congrArg (fun x => x.testBit i) h
  simp only [Nat.testBit_and, hk, Bool.true_and, Nat.zero_testBit] at this
  exact this

theorem testBit_bnot (m i : Nat) :
    (bnot m).testBit i = (FLAG_MAX.testBit i != m.testBit i) := by
  simp [bnot, Nat.testBit_xor]

/-- Clearing the field `m` and or-ing in a value `k` of that field leaves `k` there. -/
theorem field_set (x m k : Nat) (hm : m &&& FLAG_MAX = m) (hk : k &&& m = k) :
    ((x &&& bnot m) ||| k) &&& m = k := by
  apply Nat.eq_of_testBit_eq
  intro i
  have h1 := sub_bit hm i
  have h2 := sub_bit hk i
  simp only [Nat.testBit_and, Nat.testBit_or, testBit_bnot]
  cases hx : x.testBit i <;> cases hmi : m.testBit i <;> cases hki : k.testBit i <;>
    cases hf : FLAG_MAX.testBit i <;> simp_all

/-- Clearing the bits `m` does not change a field `n` disjoint from `m`. -/
theorem field_frame_clear (x m n : Nat) (hn : n &&& FLAG_MAX = n) (hd : n &&& m = 0) :
    (x &&& bnot m) &&& n = x &&& n := by
  apply Nat.eq_of_testBit_eq
  intro i
  have h1 := sub_bit hn i
  have h2 := disj_bit hd i
  simp only [Nat.testBit_and, Nat.testBit_or, testBit_bnot]
  cases hx : x.testBit i <;> cases hmi : m.testBit i <;> cases hki : n.testBit i <;>
    cases hf : FLAG_MAX.testBit i <;> simp_all

/-- Setting the bits `m` does not change a field `n` disjoint from `m`. -/
theorem field_frame_or (x m n : Nat) (hd : n &&& m = 0) :
    (x ||| m) &&& n = x &&& n := by
  apply Nat.eq_of_testBit_eq
  intro i
  have h2 := disj_bit hd i
  simp only [Nat.testBit_and, Nat.testBit_or]
  cases hx : x.testBit i <;> cases hmi : m.testBit i <;> cases hki : n.testBit i <;> simp_all

/-- Setting bits that are part of the mask leaves them set. -/
theorem or_and_self (x m : Nat) : (x ||| m) &&& m = m := by
  apply Nat.eq_of_testBit_eq
  intro i
  simp only [Nat.testBit_and, Nat.testBit_or]
  cases hx : x.testBit i <;> cases hmi : m.testBit i <;> simp_all

/-- Clearing the bits `m` leaves none of them. -/
theorem clear_and_self (x m : Nat) (hm : m &&& FLAG_MAX = m) : (x &&& bnot m) &&& m = 0 := by
  apply Nat.eq_of_testBit_eq
  intro i
  have h1 := sub_bit hm i
  simp only [Nat.testBit_and, testBit_bnot, Nat.zero_testBit]
  cases hx : x.testBit i <;> cases hmi : m.testBit i <;>
    cases hf : FLAG_MAX.testBit i <;> simp_all

/-- Clearing the bits `m` leaves no bit of a part `k` of `m`. -/
theorem clear_and_sub (x m k : Nat) (hm : m &&& FLAG_MAX = m) (hk : k &&& m = k) :
    (x &&& bnot m) &&& k = 0 := by
  apply Nat.eq_of_testBit_eq
  intro i
  have h1 := sub_bit hm i
  have h2 := sub_bit hk i
  simp only [Nat.testBit_and, testBit_bnot, Nat.zero_testBit]
  cases hx : x.testBit i <;> cases hmi : m.testBit i <;> cases hki : k.testBit i <;>
    cases hf : FLAG_MAX.testBit i <;> simp_all

/-- Setting the bits `m` sets every part `k` of `m`. -/
theorem or_and_sub (x m k : Nat) (hk : k &&& m = k) : (x ||| m) &&& k = k := by
  apply Nat.eq_of_testBit_eq
  intro i
  have h2 := sub_bit hk i
  simp only [Nat.testBit_and, Nat.testBit_or]
  cases hx : x.testBit i <;> cases hmi : m.testBit i <;> cases hki : k.testBit i <;> simp_all

theorem disj_csMask (m bits : Nat) (h6 : m &&& CS6 = 0) (h7 : m &&& CS7 = 0)
    (h8 : m &&& CS8 = 0) : m &&& csMask bits = 0 := by
  unfold csMask
  split_ifs
  · exact Nat.and_zero m
  · exact h6
  · exact h7
  · exact h8

/-- The `CSIZE` field of a control-flag word is one of the four character sizes. -/
theorem csize_field_values (c : Nat) :
    c &&& CSIZE = CS5 ∨ c &&& CSIZE = CS6 ∨ c &&& CSIZE = CS7 ∨ c &&& CSIZE = CS8 := by
  have h1 : (c &&& CSIZE) &&& CSIZE = c &&& CSIZE := by
    rw [Nat.and_assoc, Nat.and_self]
  have h2 : c &&& CSIZE ≤ 48 := Nat.and_le_right
  generalize c &&& CSIZE = x at h1 h2
  interval_cases x <;> first | (exact absurd h1 (by decide)) | decide

/-! ## Reads, and calls on a descriptor that is not an open terminal -/

theorem fd_ne_neg_one (n : Nat) : ¬ ((n : Int) = -1) := by omega

theorem ttyOf_eq_some (w : World) (fd d : Nat) :
    w.ttyOf fd = some d ↔ w.fdtab fd = some (File.tty d) := by
  unfold World.ttyOf
  cases h : w.fdtab fd with
  | none => simp
  | some f => cases f <;> simp

theorem tcgetattr_tty {w : World} {fd d : Nat} (h : w.ttyOf fd = some d) :
    tcgetattr fd w =
      (some (w.attrs d), { w with trace := w.trace ++ [Call.tcgetattr fd] }) := by
  simp [tcgetattr, h]

theorem tcgetattr_not_tty {w : World} {fd : Nat} (h : w.ttyOf fd = none) :
    tcgetattr fd w = (none, { w with trace := w.trace ++ [Call.tcgetattr fd] }) := by
  simp [tcgetattr, h]

theorem modify_ttyOf (s : State) (d : Nat) (f : termios → termios) (fd : Nat) :
    (s.modify d f).world.ttyOf fd = s.world.ttyOf fd := rfl

theorem modify_sport_fd (s : State) (d : Nat) (f : termios → termios) :
    (s.modify d f).sport_fd = s.sport_fd := rfl

theorem modify_attrs (s : State) (d : Nat) (f : termios → termios) :
    (s.modify d f).world.attrs d = f (s.world.attrs d) := by
  simp [State.modify]

theorem read_ttyOf (s : State) (fd : Nat) : s.read.world.ttyOf fd = s.world.ttyOf fd := rfl

theorem get_databits_tty {s : State} {d : Nat} (h : s.world.ttyOf s.sport_fd = some d) :
    get_databits s =
      ((if (s.world.attrs d).c_cflag &&& CSIZE = CS5 then 5
        else if (s.world.attrs d).c_cflag &&& CSIZE = CS6 then 6
        else if (s.world.attrs d).c_cflag &&& CSIZE = CS7 then 7
        else if (s.world.attrs d).c_cflag &&& CSIZE = CS8 then 8
        else -1 : Int), s.read) := by
  simp [get_databits, fd_ne_neg_one, tcgetattr_tty h, State.read]

theorem get_parity_tty {s : State} {d : Nat} (h : s.world.ttyOf s.sport_fd = some d) :
    get_parity s =
      ((if (s.world.attrs d).c_cflag &&& PARENB ≠ 0 then
          if (s.world.attrs d).c_cflag &&& PARODD ≠ 0 then PARITY_ODD else PARITY_EVEN
        else PARITY_NONE), s.read) := by
  simp only [get_parity, fd_ne_neg_one, tcgetattr_tty h, if_false]
  split_ifs <;> rfl

theorem get_stopbits_tty {s : State} {d : Nat} (h : s.world.ttyOf s.sport_fd = some d) :
    get_stopbits s =
      ((if (s.world.attrs d).c_cflag &&& CSTOPB ≠ 0 then 2 else 1 : Int), s.read) := by
  simp only [get_stopbits, fd_ne_neg_one, tcgetattr_tty h, if_false]
  split_ifs <;> rfl

theorem set_baudrate_not_tty {s : State} (baud : Nat) (h : s.world.ttyOf s.sport_fd = none) :
    set_baudrate baud s = (-1, s.read) := by
  simp [set_baudrate, fd_ne_neg_one, tcgetattr_not_tty h, State.read]

theorem set_databits_not_tty {s : State} (bits : Nat) (h : s.world.ttyOf s.sport_fd = none) :
    set_databits bits s = (-1, s.read) := by
  simp [set_databits, fd_ne_neg_one, tcgetattr_not_tty h, State.read]

theorem set_parity_not_tty {s : State} (parity : PARITY_T)
    (h : s.world.ttyOf s.sport_fd = none) : set_parity parity s = (-1, s.read) := by
  simp [set_parity, fd_ne_neg_one, tcgetattr_not_tty h, State.read]

theorem set_stopbits_not_tty {s : State} (n : Nat) (h : s.world.ttyOf s.sport_fd = none) :
    set_stopbits n s = (-1, s.read) := by
  simp [set_stopbits, fd_ne_neg_one, tcgetattr_not_tty h, State.read]

theorem get_databits_not_tty {s : State} (h : s.world.ttyOf s.sport_fd = none) :
    get_databits s = (-1, s.read) := by
  simp [get_databits, fd_ne_neg_one, tcgetattr_not_tty h, State.read]

theorem get_stopbits_not_tty {s : State} (h : s.world.ttyOf s.sport_fd = none) :
    get_stopbits s = (-1, s.read) := by
  simp [get_stopbits, fd_ne_neg_one, tcgetattr_not_tty h, State.read]

/-! ## Arguments that are refused before any write -/

theorem set_databits_invalid (bits : Nat) (s : State) (hb : bits ∉ [5, 6, 7, 8]) :
    set_databits bits s = (-1, s.read) := by
  simp only [List.mem_cons, List.mem_singleton, List.not_mem_nil, or_false, not_or] at hb
  obtain ⟨h5, h6, h7, h8⟩ := hb
  cases h : s.world.ttyOf s.sport_fd with
  | none => simp [set_databits, fd_ne_neg_one, tcgetattr_not_tty h, State.read]
  | some d => simp [set_databits, fd_ne_neg_one, tcgetattr_tty h, State.read, h5, h6, h7, h8]

/-- C4: for `bits` outside {5,6,7,8} (9 for one), `set_databits bits` returns -1,
the attributes of every device and the descriptor table are what they were, and
the only system call made is the attribute read: no attribute write. -/
theorem set_databits_rejects (s : State) (bits : Nat) (hb : bits ∉ [5, 6, 7, 8]) :
    (set_databits bits s).1 = -1 ∧
    (set_databits bits s).2.world.attrs = s.world.attrs ∧
    (set_databits bits s).2.world.fdtab = s.world.fdtab ∧
    (set_databits bits s).2.world.trace = s.world.trace ++ [Call.tcgetattr s.sport_fd] ∧
    (set_databits bits s).2.sport_fd = s.sport_fd ∧
    (set_databits bits s).2.old_ios = s.old_ios := by
  rw [set_databits_invalid bits s hb]
  exact ⟨rfl, rfl, rfl, rfl, rfl, rfl⟩

theorem set_databits_rejects_witness :
    (9 : Nat) ∉ [5, 6, 7, 8] ∧
    (set_databits 9 demoState).1 = -1 :=
  ⟨by decide, (set_databits_rejects demoState 9 (by decide)).1⟩

theorem set_stopbits_invalid (n : Nat) (s : State) (h1 : n ≠ 1) (h2 : n ≠ 2) :
    set_stopbits n s = (-1, s.read) := by
  cases h : s.world.ttyOf s.sport_fd with
  | none => simp [set_stopbits, fd_ne_neg_one, tcgetattr_not_tty h, State.read]
  | some d => simp [set_stopbits, fd_ne_neg_one, tcgetattr_tty h, State.read, h1, h2]

theorem csMask_field (bits : Nat) : csMask bits &&& CSIZE = csMask bits := by
  unfold csMask
  split_ifs <;> decide

theorem databits_decode (c bits : Nat) (hb : bits ∈ [5, 6, 7, 8]) :
    (if ((c &&& bnot CSIZE) ||| csMask bits) &&& CSIZE = CS5 then 5
      else if ((c &&& bnot CSIZE) ||| csMask bits) &&& CSIZE = CS6 then 6
      else if ((c &&& bnot CSIZE) ||| csMask bits) &&& CSIZE = CS7 then 7
      else if ((c &&& bnot CSIZE) ||| csMask bits) &&& CSIZE = CS8 then 8
      else -1 : Int) = (bits : Int) := by
  rw [field_set c CSIZE (csMask bits) (by decide) (csMask_field bits)]
  simp only [List.mem_cons, List.mem_singleton, List.not_mem_nil, or_false] at hb
  rcases hb with hb | hb | hb | hb <;> subst hb <;> decide

/-- The parity `get_parity` reads back from a control-flag word. -/
theorem parity_decode_none (c : Nat) :
    (if (c &&& bnot PARENB) &&& PARENB ≠ 0 then
        if (c &&& bnot PARENB) &&& PARODD ≠ 0 then PARITY_ODD else PARITY_EVEN
      else PARITY_NONE) = PARITY_NONE := by
  rw [clear_and_self c PARENB (by decide)]
  simp

theorem parity_decode_even (c : Nat) :
    (if ((c &&& bnot PARODD) ||| PARENB) &&& PARENB ≠ 0 then
        if ((c &&& bnot PARODD) ||| PARENB) &&& PARODD ≠ 0 then PARITY_ODD else PARITY_EVEN
      else PARITY_NONE) = PARITY_EVEN := by
  rw [or_and_self, field_frame_or _ PARENB PARODD (by decide),
    clear_and_self c PARODD (by decide)]
  simp [PARENB]

theorem parity_decode_odd (c : Nat) :
    (if ((c ||| PARODD) ||| PARENB) &&& PARENB ≠ 0 then
        if ((c ||| PARODD) ||| PARENB) &&& PARODD ≠ 0 then PARITY_ODD else PARITY_EVEN
      else PARITY_NONE) = PARITY_ODD := by
  rw [or_and_self, field_frame_or _ PARENB PARODD (by decide), or_and_self]
  simp [PARENB, PARODD]

theorem validSpeed_ultob (baud : Nat) : validSpeed (ultob baud) = true := by
  by_cases h : baud ∈ supportedRates
  · simp only [supportedRates, List.mem_cons, List.mem_singleton, List.not_mem_nil,
      or_false] at h
    rcases h with h | h | h | h | h | h | h | h | h | h | h | h | h | h | h | h | h | h | h <;>
      subst h <;> decide
  · rw [ultob_not_mem baud h]
    decide

/-! ## The character size field -/

/-- C20: when the attribute read succeeds, `get_databits` returns one of 5, 6, 7,
8 and never -1: `CS5`, `CS6`, `CS7`, `CS8` are all the values of the `CSIZE` field. -/
theorem get_databits_range (s : State) (d : Nat) (hd : s.world.ttyOf s.sport_fd = some d) :
    (get_databits s).1 ∈ [(5 : Int), 6, 7, 8] ∧ (get_databits s).1 ≠ -1 := by
  rw [get_databits_tty hd]
  simp only []
  rcases csize_field_values (s.world.attrs d).c_cflag with h | h | h | h <;>
    rw [h] <;> decide

theorem get_databits_range_witness :
    demoState.world.ttyOf demoState.sport_fd = some 0 ∧
    (get_databits demoState).1 ∈ [(5 : Int), 6, 7, 8] ∧ (get_databits demoState).1 ≠ -1 :=
  ⟨rfl, get_databits_range demoState 0 rfl⟩

/-! ## Opening with an empty name, and closing -/

/-- C9: with an empty port name `sport_open` returns -1 and hands back the state it
was given: no system call is added to the trace, and the stored descriptor, the
saved attributes, the descriptor table and the device attributes are untouched. -/
theorem sport_open_empty_name (port_name : List Char) (speed dbits : Nat) (par : PARITY_T)
    (sbits : Nat) (nblock : Bool) (s : State) (h : strlen port_name = 0) :
    sport_open port_name speed dbits par sbits nblock s = (-1, s) ∧
    (sport_open port_name speed dbits par sbits nblock s).2.world.trace = s.world.trace ∧
    (sport_open port_name speed dbits par sbits nblock s).2.sport_fd = s.sport_fd ∧
    (sport_open port_name speed dbits par sbits nblock s).2.old_ios = s.old_ios := by
  have e : sport_open port_name speed dbits par sbits nblock s = (-1, s) := by
    simp [sport_open, h]
  rw [e]
  exact ⟨rfl, rfl, rfl, rfl⟩

theorem sport_open_empty_name_witness :
    strlen [] = 0 ∧
    sport_open [] 9600 8 PARITY_NONE 1 false demoState = (-1, demoState) :=
  ⟨rfl, (sport_open_empty_name [] 9600 8 PARITY_NONE 1 false demoState rfl).1⟩

theorem sport_open_not_tty (port_name : List Char) (r d : Nat) (p : PARITY_T) (sb : Nat)
    (nblock : Bool) (s : State)
    (htty : (afterOpen port_name nblock s).world.ttyOf (afterOpen port_name nblock s).sport_fd
      = none) :
    (sport_open port_name r d p sb nblock s).1 = -1 := by
  by_cases hne : strlen port_name = 0
  · simp [sport_open, hne]
  · simp only [afterOpen] at htty
    simp only [sport_open, hne, if_false, fd_ne_neg_one, tcgetattr, htty, Option.map]

theorem afterOpen_attrs (port_name : List Char) (nblock : Bool) (s : State) :
    (afterOpen port_name nblock s).world.attrs = s.world.attrs := by
  simp only [afterOpen, os_open]
  split <;> rfl

theorem afterOpen_old_ios (port_name : List Char) (nblock : Bool) (s : State) :
    (afterOpen port_name nblock s).old_ios = s.old_ios := rfl

theorem afterOpen_of_open (port_name : List Char) (nblock : Bool) (s : State) (fd : Nat)
    (f : File)
    (hopen : s.world.opener port_name
      (if !nblock then O_RDWR ||| O_NOCTTY ||| O_NDELAY else O_RDWR ||| O_NOCTTY)
      = some (fd, f)) :
    (afterOpen port_name nblock s).sport_fd = toUint8 (fd : Int) ∧
    (afterOpen port_name nblock s).world.fdtab = Function.update s.world.fdtab fd (some f) := by
  constructor <;> simp only [afterOpen, os_open, hopen]

/-- After a `sport_close` that returned 0 the stored descriptor is closed. -/
theorem sport_close_closes (s : State) (h : (sport_close s).1 = 0) :
    (sport_close s).2.world.ttyOf (sport_close s).2.sport_fd = none := by
  unfold sport_close os_close at h ⊢
  cases hf : s.world.fdtab s.sport_fd with
  | none => simp [hf] at h
  | some f => simp [hf, World.ttyOf]

/-- After a `sport_close` that returned 0, and as long as the descriptor stays
closed, the parameter calls return -1 and leave the attributes of every device as
they were. -/
theorem after_close_fails (s : State) (h : (sport_close s).1 = 0) (baud bits n : Nat)
    (p : PARITY_T) :
    (set_baudrate baud (sport_close s).2).1 = -1 ∧
    (set_databits bits (sport_close s).2).1 = -1 ∧
    (set_parity p (sport_close s).2).1 = -1 ∧
    (set_stopbits n (sport_close s).2).1 = -1 ∧
    (get_databits (sport_close s).2).1 = -1 ∧
    (get_stopbits (sport_close s).2).1 = -1 ∧
    (set_baudrate baud (sport_close s).2).2.world.attrs = (sport_close s).2.world.attrs ∧
    (set_databits bits (sport_close s).2).2.world.attrs = (sport_close s).2.world.attrs ∧
    (set_parity p (sport_close s).2).2.world.attrs = (sport_close s).2.world.attrs ∧
    (set_stopbits n (sport_close s).2).2.world.attrs = (sport_close s).2.world.attrs := by
  have hc := sport_close_closes s h
  rw [set_baudrate_not_tty baud hc, set_databits_not_tty bits hc, set_parity_not_tty p hc,
    set_stopbits_not_tty n hc, get_databits_not_tty hc, get_stopbits_not_tty hc]
  exact ⟨rfl, rfl, rfl, rfl, rfl, rfl, rfl, rfl, rfl, rfl⟩

/-! ## What a device stores of a write -/

theorem zero_bit {a k : Nat} (h : a &&& k = 0) (i : Nat) :
    k.testBit i = true → a.testBit i = false := by
  intro hk
  have := congrArg (fun x => x.testBit i) h
  simp only [Nat.testBit_and, hk, Bool.and_true, Nat.zero_testBit] at this
  exact this

theorem testBit_select (m cur req i : Nat) :
    (select m cur req).testBit i = (if m.testBit i then cur.testBit i else req.testBit i) := by
  simp only [select, Nat.testBit_xor, Nat.testBit_and]
  cases m.testBit i <;> cases cur.testBit i <;> cases req.testBit i <;> rfl

/-- Writing what the device holds changes nothing. -/
theorem select_self (m c : Nat) : select m c c = c := by
  simp [select]

/-- Where the request agrees with the device on the kept bits, it is stored whole. -/
theorem select_of_agree (m cur req : Nat) (h : (req ^^^ cur) &&& m = 0) :
    select m cur req = req := by
  simp [select, h]

/-- Bits that are not kept come from the request. -/
theorem select_and_disj (m cur req n : Nat) (h : n &&& m = 0) :
    select m cur req &&& n = req &&& n := by
  apply Nat.eq_of_testBit_eq
  intro i
  have h1 := disj_bit h i
  simp only [Nat.testBit_and, testBit_select]
  cases hn : n.testBit i <;> cases hm : m.testBit i <;> simp_all

/-- Bits that are kept come from the device. -/
theorem select_and_sub (m cur req n : Nat) (h : n &&& m = n) :
    select m cur req &&& n = cur &&& n := by
  apply Nat.eq_of_testBit_eq
  intro i
  have h1 := sub_bit h i
  simp only [Nat.testBit_and, testBit_select]
  cases hn : n.testBit i <;> cases hm : m.testBit i <;> simp_all

/-- Bits on which request and device agree are unchanged, kept or not. -/
theorem select_and_agree (m cur req n : Nat) (h : (req ^^^ cur) &&& n = 0) :
    select m cur req &&& n = cur &&& n := by
  apply Nat.eq_of_testBit_eq
  intro i
  have h1 := zero_bit h i
  simp only [Nat.testBit_xor] at h1
  simp only [Nat.testBit_and, testBit_select]
  cases hn : n.testBit i <;> cases hm : m.testBit i <;> cases hc : cur.testBit i <;>
    cases hr : req.testBit i <;> simp_all

theorem agree_refl (k a : Nat) : (a ^^^ a) &&& k = 0 := by
  simp

/-- Clearing bits outside `k` keeps the agreement on `k`. -/
theorem agree_clear (k a b m : Nat) (hk : k &&& FLAG_MAX = k) (hd : k &&& m = 0)
    (h : (a ^^^ b) &&& k = 0) : ((a &&& bnot m) ^^^ b) &&& k = 0 := by
  apply Nat.eq_of_testBit_eq
  intro i
  have h1 := zero_bit h i
  have h2 := sub_bit hk i
  have h3 := disj_bit hd i
  simp only [Nat.testBit_xor] at h1
  simp only [Nat.testBit_and, Nat.testBit_xor, testBit_bnot, Nat.zero_testBit]
  cases hki : k.testBit i <;> cases ha : a.testBit i <;> cases hb : b.testBit i <;>
    cases hm : m.testBit i <;> cases hf : FLAG_MAX.testBit i <;> simp_all

/-- Setting bits outside `k` keeps the agreement on `k`. -/
theorem agree_or (k a b m : Nat) (hd : k &&& m = 0) (h : (a ^^^ b) &&& k = 0) :
    ((a ||| m) ^^^ b) &&& k = 0 := by
  apply Nat.eq_of_testBit_eq
  intro i
  have h1 := zero_bit h i
  have h3 := disj_bit hd i
  simp only [Nat.testBit_xor] at h1
  simp only [Nat.testBit_and, Nat.testBit_xor, Nat.testBit_or, Nat.zero_testBit]
  cases hki : k.testBit i <;> cases ha : a.testBit i <;> cases hb : b.testBit i <;>
    cases hm : m.testBit i <;> simp_all

/-- A part of a mask is disjoint from what the mask is disjoint from. -/
theorem disj_of_sub (n m v : Nat) (hv : v &&& m = v) (hn : n &&& m = 0) : n &&& v = 0 := by
  apply Nat.eq_of_testBit_eq
  intro i
  have h1 := sub_bit hv i
  have h2 := disj_bit hn i
  simp only [Nat.testBit_and, Nat.zero_testBit]
  cases hni : n.testBit i <;> cases hvi : v.testBit i <;> cases hm : m.testBit i <;> simp_all

/-! ## The bits a device keeps -/

theorem kept_flagmax (dv : Device) (req : termios) :
    dv.kept req &&& FLAG_MAX = dv.kept req := by
  unfold Device.kept
  split_ifs <;> decide

theorem kept_cstopb (dv : Device) (req : termios) : dv.kept req &&& CSTOPB = 0 := by
  unfold Device.kept
  split_ifs <;> decide

theorem kept_parodd (dv : Device) (req : termios) : dv.kept req &&& PARODD = 0 := by
  unfold Device.kept
  split_ifs <;> decide

theorem kept_csize (dv : Device) (req : termios) (h : dv.fixedSize = false) :
    dv.kept req &&& CSIZE = 0 := by
  simp only [Device.kept, h, Bool.false_eq_true, if_false, if_true]
  split_ifs <;> decide

theorem kept_parenb (dv : Device) (req : termios) (h : dv.fixedParity = false) :
    dv.kept req &&& PARENB = 0 := by
  simp only [Device.kept, h, Bool.false_eq_true, if_false, if_true]
  split_ifs <;> decide

/-- Without a fixed size and a fixed parity only the speed bits can be kept. -/
theorem kept_sub_cbaud (dv : Device) (req : termios) (hs : dv.fixedSize = false)
    (hp : dv.fixedParity = false) : dv.kept req &&& (CBAUD ||| CBAUDEX) = dv.kept req := by
  simp only [Device.kept, hs, hp, Bool.false_eq_true, if_false]
  split_ifs <;> decide

/-- When the speed is taken the speed bits are not kept. -/
theorem kept_cbaud (dv : Device) (req : termios) (h : dv.speedOk req = true) :
    dv.kept req &&& (CBAUD ||| CBAUDEX) = 0 := by
  simp only [Device.kept, h, Bool.false_eq_true, if_false, if_true]
  split_ifs <;> decide

theorem result_cases (dv : Device) (cur req : termios) :
    dv.result cur req = 0 ∨ dv.result cur req = -1 := by
  unfold Device.result
  split_ifs
  · exact Or.inr rfl
  · exact Or.inl rfl

/-- When the character size asked for is the one stored, the write returns 0. -/
theorem result_zero (dv : Device) (cur req : termios)
    (h : (dv.store cur req).c_cflag &&& CSIZE = req.c_cflag &&& CSIZE) :
    dv.result cur req = 0 := by
  unfold Device.result
  rw [if_neg]
  intro hc
  exact hc.2 h

/-- A request that agrees with the device on bit `IBAUD0`, on the kept bits, and on
the two speed members, is stored as written and the write returns 0. -/
theorem store_takes (dv : Device) (cur req : termios)
    (hi : (req.c_iflag ^^^ cur.c_iflag) &&& IBAUD0 = 0)
    (hc : (req.c_cflag ^^^ cur.c_cflag) &&& dv.kept req = 0)
    (h1 : req.c_ispeed = cur.c_ispeed) (h2 : req.c_ospeed = cur.c_ospeed) :
    dv.store cur req = req ∧ dv.result cur req = 0 := by
  have e : dv.store cur req = req := by
    unfold Device.store
    rw [select_of_agree _ _ _ hi, select_of_agree _ _ _ hc, ← h1, ← h2]
    simp
  exact ⟨e, result_zero dv cur req (by rw [e])⟩

/-- Writing back what was read changes nothing and returns 0. -/
theorem store_self (dv : Device) (cur : termios) :
    dv.store cur cur = cur ∧ dv.result cur cur = 0 :=
  store_takes dv cur cur (agree_refl _ _) (agree_refl _ _) rfl rfl

/-! ## Writes on an open terminal -/

theorem tcsetattr_tty {w : World} {fd d : Nat} (t : termios) (h : w.ttyOf fd = some d) :
    tcsetattr fd t w =
      ((w.limits d).result (w.attrs d) t,
        { w with attrs := Function.update w.attrs d ((w.limits d).store (w.attrs d) t),
                 trace := w.trace ++ [Call.tcsetattr fd t] }) := by
  simp [tcsetattr, h]

theorem wrote_ttyOf (s : State) (d : Nat) (req : termios) (fd : Nat) :
    (s.wrote d req).world.ttyOf fd = s.world.ttyOf fd := rfl

theorem wrote_attrs (s : State) (d : Nat) (req : termios) :
    (s.wrote d req).world.attrs d = (s.world.limits d).store (s.world.attrs d) req := by
  simp [State.wrote]

/-- A write the device takes as written leaves the state `State.modify` describes. -/
theorem wrote_eq_modify (s : State) (d : Nat) (f : termios → termios)
    (h : (s.world.limits d).store (s.world.attrs d) (f (s.world.attrs d))
      = f (s.world.attrs d)) :
    s.wrote d (f (s.world.attrs d)) = s.modify d f := by
  unfold State.wrote State.modify
  rw [h]

/-- The tail every setter ends with: the write after the read, and the result
passed on. -/
theorem write_tail (s : State) (d : Nat) (req : termios)
    (h : s.world.ttyOf s.sport_fd = some d) :
    (if (tcsetattr s.sport_fd req (tcgetattr s.sport_fd s.world).2).1 ≠ 0 then
        ((-1 : Int),
          { s with world := (tcsetattr s.sport_fd req (tcgetattr s.sport_fd s.world).2).2 })
      else (0, { s with world := (tcsetattr s.sport_fd req (tcgetattr s.sport_fd s.world).2).2 }))
    = ((s.world.limits d).result (s.world.attrs d) req, s.wrote d req) := by
  have hw : (tcgetattr s.sport_fd s.world).2.ttyOf s.sport_fd = some d := h
  rw [tcsetattr_tty req hw]
  rcases result_cases (s.world.limits d) (s.world.attrs d) req with hr | hr
  · have hr' : (tcgetattr s.sport_fd s.world).2.limits d = s.world.limits d := rfl
    simp only [tcgetattr, hr, ne_eq, not_true_eq_false, if_false]
    simp [State.wrote]
  · simp only [tcgetattr, hr]
    simp [State.wrote]

/-! ## The setters on an open terminal -/

theorem set_stopbits_one_gen {s : State} {d : Nat} (h : s.world.ttyOf s.sport_fd = some d) :
    set_stopbits 1 s =
      ((s.world.limits d).result (s.world.attrs d)
          { s.world.attrs d with c_cflag := (s.world.attrs d).c_cflag &&& bnot CSTOPB },
        s.wrote d { s.world.attrs d with c_cflag := (s.world.attrs d).c_cflag &&& bnot CSTOPB }) := by
  have hw : ({ s.world with trace := s.world.trace ++ [Call.tcgetattr s.sport_fd] } :
      World).ttyOf s.sport_fd = some d := h
  rcases result_cases (s.world.limits d) (s.world.attrs d)
      { s.world.attrs d with c_cflag := (s.world.attrs d).c_cflag &&& bnot CSTOPB }
    with hr | hr <;>
    simp [set_stopbits, fd_ne_neg_one, tcgetattr_tty h, tcsetattr_tty _ hw, State.wrote, hr]

theorem set_stopbits_two_gen {s : State} {d : Nat} (h : s.world.ttyOf s.sport_fd = some d) :
    set_stopbits 2 s =
      ((s.world.limits d).result (s.world.attrs d)
          { s.world.attrs d with c_cflag := (s.world.attrs d).c_cflag ||| CSTOPB },
        s.wrote d { s.world.attrs d with c_cflag := (s.world.attrs d).c_cflag ||| CSTOPB }) := by
  have hw : ({ s.world with trace := s.world.trace ++ [Call.tcgetattr s.sport_fd] } :
      World).ttyOf s.sport_fd = some d := h
  rcases result_cases (s.world.limits d) (s.world.attrs d)
      { s.world.attrs d with c_cflag := (s.world.attrs d).c_cflag ||| CSTOPB }
    with hr | hr <;>
    simp [set_stopbits, fd_ne_neg_one, tcgetattr_tty h, tcsetattr_tty _ hw, State.wrote, hr]

theorem cs_mask_some (bits : Nat) (hb : bits ∈ [5, 6, 7, 8]) :
    (if bits = 5 then some CS5
      else if bits = 6 then some CS6
      else if bits = 7 then some CS7
      else if bits = 8 then some CS8
      else none : Option Nat) = some (csMask bits) := by
  simp only [List.mem_cons, List.mem_singleton, List.not_mem_nil, or_false] at hb
  rcases hb with hb | hb | hb | hb <;> subst hb <;> rfl

theorem set_databits_gen {s : State} {d : Nat} (bits : Nat)
    (h : s.world.ttyOf s.sport_fd = some d) (hb : bits ∈ [5, 6, 7, 8]) :
    set_databits bits s =
      ((s.world.limits d).result (s.world.attrs d) (dataFn bits (s.world.attrs d)),
        s.wrote d (dataFn bits (s.world.attrs d))) := by
  have hw : ({ s.world with trace := s.world.trace ++ [Call.tcgetattr s.sport_fd] } :
      World).ttyOf s.sport_fd = some d := h
  have hr := result_cases (s.world.limits d) (s.world.attrs d) (dataFn bits (s.world.attrs d))
  simp only [set_databits, fd_ne_neg_one, if_false, tcgetattr_tty h, cs_mask_some bits hb,
    tcsetattr_tty _ hw, dataFn, State.wrote] at hr ⊢
  rcases hr with hr | hr <;> simp [hr]

theorem set_parity_tty {s : State} {d : Nat} (parity : PARITY_T)
    (h : s.world.ttyOf s.sport_fd = some d) :
    set_parity parity s =
      match parity_switch parity (s.world.attrs d) with
      | ParityArm.ret r => (r, s.read)
      | ParityArm.apply t => ((s.world.limits d).result (s.world.attrs d) t, s.wrote d t) := by
  have hw : ({ s.world with trace := s.world.trace ++ [Call.tcgetattr s.sport_fd] } :
      World).ttyOf s.sport_fd = some d := h
  simp only [set_parity, fd_ne_neg_one, tcgetattr_tty h, if_false]
  cases parity_switch parity (s.world.attrs d) with
  | ret r => simp [State.read]
  | apply t =>
    rcases result_cases (s.world.limits d) (s.world.attrs d) t with hr | hr <;>
      simp [tcsetattr_tty _ hw, State.wrote, hr]

theorem set_baudrate_gen {s : State} {d : Nat} (baud : Nat)
    (h : s.world.ttyOf s.sport_fd = some d) :
    set_baudrate baud s =
      ((s.world.limits d).result (s.world.attrs d) (baudFn baud (s.world.attrs d)),
        s.wrote d (baudFn baud (s.world.attrs d))) := by
  have hw : ({ s.world with trace := s.world.trace ++ [Call.tcgetattr s.sport_fd] } :
      World).ttyOf s.sport_fd = some d := h
  have hv := validSpeed_ultob baud
  have e1 : (cfsetispeed (s.world.attrs d) (ultob baud)).1 = 0 := by
    simp only [cfsetispeed, hv, if_true]
    split_ifs <;> rfl
  have e2 : (cfsetospeed (cfsetispeed (s.world.attrs d) (ultob baud)).2 (ultob baud)).1 = 0 := by
    simp only [cfsetospeed, hv, if_true]
  rcases result_cases (s.world.limits d) (s.world.attrs d) (baudFn baud (s.world.attrs d))
    with hr | hr <;>
    simp only [baudFn] at hr <;>
    simp [set_baudrate, fd_ne_neg_one, tcgetattr_tty h, tcsetattr_tty _ hw, State.wrote,
      baudFn, e1, e2, hr]

theorem get_baudrate_tty {s : State} {d : Nat} (h : s.world.ttyOf s.sport_fd = some d) :
    get_baudrate s =
      (((btoul ((s.world.attrs d).c_cflag &&& (CBAUD ||| CBAUDEX)) : Nat) : Int),
        { s.read with old_ios := s.world.attrs d }) := by
  simp [get_baudrate, tcgetattr_tty h, State.read, cfgetospeed]

/-! ## Writes every device takes as written, and writes that need a willing device -/

theorem stop_clear_takes (dv : Device) (cur : termios) :
    dv.store cur { cur with c_cflag := cur.c_cflag &&& bnot CSTOPB }
      = { cur with c_cflag := cur.c_cflag &&& bnot CSTOPB } ∧
    dv.result cur { cur with c_cflag := cur.c_cflag &&& bnot CSTOPB } = 0 :=
  store_takes dv cur _ (agree_refl _ _)
    (agree_clear _ _ _ CSTOPB (kept_flagmax dv _) (kept_cstopb dv _) (agree_refl _ _)) rfl rfl

theorem stop_set_takes (dv : Device) (cur : termios) :
    dv.store cur { cur with c_cflag := cur.c_cflag ||| CSTOPB }
      = { cur with c_cflag := cur.c_cflag ||| CSTOPB } ∧
    dv.result cur { cur with c_cflag := cur.c_cflag ||| CSTOPB } = 0 :=
  store_takes dv cur _ (agree_refl _ _)
    (agree_or _ _ _ CSTOPB (kept_cstopb dv _) (agree_refl _ _)) rfl rfl

theorem data_takes (dv : Device) (cur : termios) (bits : Nat) (hsz : dv.fixedSize = false) :
    dv.store cur (dataFn bits cur) = dataFn bits cur ∧
    dv.result cur (dataFn bits cur) = 0 :=
  store_takes dv cur _ (agree_refl _ _)
    (agree_or _ _ _ (csMask bits)
      (disj_of_sub _ CSIZE _ (csMask_field bits) (kept_csize dv _ hsz))
      (agree_clear _ _ _ CSIZE (kept_flagmax dv _) (kept_csize dv _ hsz) (agree_refl _ _)))
    rfl rfl

/-- The arms of `set_parity` that rewrite the parity bits are taken as written by a
device that lets the parity enable bit change. -/
theorem parity_takes (dv : Device) (cur : termios) (p : PARITY_T)
    (hp : p ∈ [PARITY_NONE, PARITY_ODD, PARITY_EVEN, PARITY_SPACE])
    (hpar : dv.fixedParity = false) :
    parity_switch p cur = ParityArm.apply (parityFn p cur) ∧
    dv.store cur (parityFn p cur) = parityFn p cur ∧
    dv.result cur (parityFn p cur) = 0 := by
  have hi : ((cur.c_iflag &&& bnot INPCK) ^^^ cur.c_iflag) &&& IBAUD0 = 0 :=
    agree_clear _ _ _ INPCK (by decide) (by decide) (agree_refl _ _)
  simp only [List.mem_cons, List.mem_singleton, List.not_mem_nil, or_false] at hp
  rcases hp with hp | hp | hp | hp <;> subst hp
  · exact ⟨rfl, store_takes dv cur
      { cur with c_cflag := cur.c_cflag &&& bnot PARENB, c_iflag := cur.c_iflag &&& bnot INPCK }
      hi
      (agree_clear _ _ _ PARENB (kept_flagmax dv _) (kept_parenb dv _ hpar) (agree_refl _ _))
      rfl rfl⟩
  · exact ⟨rfl, store_takes dv cur
      { cur with c_cflag := (cur.c_cflag ||| PARODD) ||| PARENB,
                 c_iflag := cur.c_iflag &&& bnot INPCK }
      hi
      (agree_or _ _ _ PARENB (kept_parenb dv _ hpar)
        (agree_or _ _ _ PARODD (kept_parodd dv _) (agree_refl _ _)))
      rfl rfl⟩
  · exact ⟨rfl, store_takes dv cur
      { cur with c_cflag := (cur.c_cflag &&& bnot PARODD) ||| PARENB,
                 c_iflag := cur.c_iflag &&& bnot INPCK }
      hi
      (agree_or _ _ _ PARENB (kept_parenb dv _ hpar)
        (agree_clear _ _ _ PARODD (kept_flagmax dv _) (kept_parodd dv _) (agree_refl _ _)))
      rfl rfl⟩
  · exact ⟨rfl, store_takes dv cur
      { cur with c_cflag := cur.c_cflag &&& bnot PARENB, c_iflag := cur.c_iflag &&& bnot INPCK }
      hi
      (agree_clear _ _ _ PARENB (kept_flagmax dv _) (kept_parenb dv _ hpar) (agree_refl _ _))
      rfl rfl⟩

theorem set_stopbits_one {s : State} {d : Nat} (h : s.world.ttyOf s.sport_fd = some d) :
    set_stopbits 1 s =
      (0, s.modify d (fun t => { t with c_cflag := t.c_cflag &&& bnot CSTOPB })) := by
  rw [set_stopbits_one_gen h, (stop_clear_takes _ _).2,
    wrote_eq_modify s d (fun t => { t with c_cflag := t.c_cflag &&& bnot CSTOPB })
      (stop_clear_takes _ _).1]

theorem set_stopbits_two {s : State} {d : Nat} (h : s.world.ttyOf s.sport_fd = some d) :
    set_stopbits 2 s =
      (0, s.modify d (fun t => { t with c_cflag := t.c_cflag ||| CSTOPB })) := by
  rw [set_stopbits_two_gen h, (stop_set_takes _ _).2,
    wrote_eq_modify s d (fun t => { t with c_cflag := t.c_cflag ||| CSTOPB })
      (stop_set_takes _ _).1]

theorem set_databits_tty {s : State} {d : Nat} (bits : Nat)
    (h : s.world.ttyOf s.sport_fd = some d) (hb : bits ∈ [5, 6, 7, 8])
    (hsz : (s.world.limits d).fixedSize = false) :
    set_databits bits s =
      (0, s.modify d (fun t => { t with c_cflag := (t.c_cflag &&& bnot CSIZE) ||| csMask bits })) := by
  rw [set_databits_gen bits h hb, (data_takes _ _ bits hsz).2]
  exact congrArg (Prod.mk (0 : Int)) (wrote_eq_modify s d (dataFn bits) (data_takes _ _ bits hsz).1)

theorem set_parity_tty_fn {s : State} {d : Nat} (p : PARITY_T)
    (h : s.world.ttyOf s.sport_fd = some d)
    (hp : p ∈ [PARITY_NONE, PARITY_ODD, PARITY_EVEN, PARITY_SPACE])
    (hpar : (s.world.limits d).fixedParity = false) :
    set_parity p s = (0, s.modify d (parityFn p)) := by
  obtain ⟨e1, e2, e3⟩ := parity_takes (s.world.limits d) (s.world.attrs d) p hp hpar
  rw [set_parity_tty p h, e1]
  simp only []
  rw [e3, wrote_eq_modify s d (parityFn p) e2]

theorem set_parity_mark_eq {s : State} {d : Nat} (h : s.world.ttyOf s.sport_fd = some d) :
    set_parity PARITY_MARK s = (0, s.modify d (fun t => t)) := by
  have e1 : parity_switch PARITY_MARK (s.world.attrs d) = ParityArm.apply (s.world.attrs d) := rfl
  rw [set_parity_tty PARITY_MARK h, e1]
  simp only []
  rw [(store_self _ _).2, wrote_eq_modify s d (fun t => t) (store_self _ _).1]

theorem parity_switch_rejected (p : PARITY_T) (t : termios) (hp : p ∉ acceptedParities) :
    parity_switch p t = ParityArm.ret (-1) := by
  simp only [acceptedParities, List.mem_cons, List.mem_singleton, List.not_mem_nil,
    or_false, not_or] at hp
  obtain ⟨h1, h2, h3, h4, h5, h6⟩ := hp
  simp [parity_switch, h1, h2, h3, h4, h5, h6]

theorem set_parity_rejected (p : PARITY_T) (s : State) (hp : p ∉ acceptedParities) :
    set_parity p s = (-1, s.read) := by
  cases h : s.world.ttyOf s.sport_fd with
  | none => simp [set_parity, fd_ne_neg_one, tcgetattr_not_tty h, State.read]
  | some d =>
    rw [set_parity_tty p h, parity_switch_rejected p _ hp]

/-! ## Data bits -/

/-- C13 as stated fails: with no descriptor open `set_parity PARITY_IGNORE` returns
-1, not success, and it has made an attribute read; on an open terminal too the
one call it makes is an attribute read. -/
theorem ignore_parity_reads_first :
    (set_parity PARITY_IGNORE (initState emptyWorld)).1 = -1 ∧
    (set_parity PARITY_IGNORE (initState emptyWorld)).2.world.trace = [Call.tcgetattr 0] ∧
    (set_parity PARITY_IGNORE demoState).2.world.trace = [Call.tcgetattr 3] := by
  refine ⟨by decide, by decide, by decide⟩

/-- C13, amended: `set_parity PARITY_IGNORE` makes exactly one system call, the
attribute read every mode starts with; it returns 0 when that read succeeds and
-1 when it fails; it writes no attributes and leaves the attributes of every device
and the descriptor table as they were. -/
theorem set_parity_ignore (s : State) :
    (set_parity PARITY_IGNORE s).1 = (if (s.world.ttyOf s.sport_fd).isSome then 0 else -1) ∧
    (set_parity PARITY_IGNORE s).2.world.trace = s.world.trace ++ [Call.tcgetattr s.sport_fd] ∧
    (set_parity PARITY_IGNORE s).2.world.attrs = s.world.attrs ∧
    (set_parity PARITY_IGNORE s).2.world.fdtab = s.world.fdtab := by
  cases h : s.world.ttyOf s.sport_fd with
  | none =>
    rw [set_parity_not_tty _ h]
    exact ⟨rfl, rfl, rfl, rfl⟩
  | some d =>
    rw [set_parity_tty _ h]
    exact ⟨rfl, rfl, rfl, rfl⟩

/-- C14 as stated fails: on an open terminal `set_parity PARITY_MARK` makes an
attribute write (of the attributes it has just read). -/
theorem mark_parity_writes :
    (set_parity PARITY_MARK demoState).2.world.trace
      = [Call.tcgetattr 3, Call.tcsetattr 3 termios.zero] := by
  decide

/-- C14, amended: on an open terminal `set_parity` writes attributes in the branches
for none, odd, even, mark and space, and in no other; `set_parity PARITY_MARK`
returns 0, reads the attributes and writes the very same attributes back, so that
the attributes of every device are what they were. -/
theorem set_parity_mark (s : State) (d : Nat) (hd : s.world.ttyOf s.sport_fd = some d) :
    (set_parity PARITY_MARK s).1 = 0 ∧
    (set_parity PARITY_MARK s).2.world.attrs = s.world.attrs ∧
    (set_parity PARITY_MARK s).2.world.trace = s.world.trace ++
      [Call.tcgetattr s.sport_fd, Call.tcsetattr s.sport_fd (s.world.attrs d)] ∧
    (∀ p, p ∈ [PARITY_NONE, PARITY_ODD, PARITY_EVEN, PARITY_MARK, PARITY_SPACE] →
      (set_parity p s).2.world.trace = s.world.trace ++
        [Call.tcgetattr s.sport_fd,
         Call.tcsetattr s.sport_fd (parityFn p (s.world.attrs d))]) ∧
    (∀ p, p ∉ [PARITY_NONE, PARITY_ODD, PARITY_EVEN, PARITY_MARK, PARITY_SPACE] →
      (set_parity p s).2.world.trace = s.world.trace ++ [Call.tcgetattr s.sport_fd]) := by
  refine ⟨?_, ?_, ?_, ?_, ?_⟩
  · rw [set_parity_mark_eq hd]
  · rw [set_parity_mark_eq hd]
    show Function.update s.world.attrs d (s.world.attrs d) = s.world.attrs
    exact Function.update_eq_self d s.world.attrs
  · rw [set_parity_mark_eq hd]
    rfl
  · intro p hp
    simp only [List.mem_cons, List.mem_singleton, List.not_mem_nil, or_false] at hp
    rw [set_parity_tty _ hd]
    rcases hp with hp | hp | hp | hp | hp <;> subst hp <;> rfl
  · intro p hp
    by_cases h6 : p = PARITY_IGNORE
    · subst h6
      rw [set_parity_tty _ hd]
      rfl
    · have hr : p ∉ acceptedParities := by
        simp only [acceptedParities, List.mem_cons, List.mem_singleton, List.not_mem_nil,
          or_false, not_or] at hp ⊢
        exact ⟨hp.1, hp.2.1, hp.2.2.1, hp.2.2.2.1, hp.2.2.2.2, h6⟩
      rw [set_parity_rejected p s hr]
      rfl

theorem set_parity_mark_witness :
    demoState.world.ttyOf demoState.sport_fd = some 0 ∧
    (set_parity PARITY_MARK demoState).1 = 0 ∧
    (set_parity PARITY_MARK demoState).2.world.attrs = demoState.world.attrs ∧
    (PARITY_EVEN ∈ [PARITY_NONE, PARITY_ODD, PARITY_EVEN, PARITY_MARK, PARITY_SPACE] ∧
      (set_parity PARITY_EVEN demoState).2.world.trace = demoState.world.trace ++
        [Call.tcgetattr demoState.sport_fd,
         Call.tcsetattr demoState.sport_fd (parityFn PARITY_EVEN (demoState.world.attrs 0))]) ∧
    (PARITY_IGNORE ∉ [PARITY_NONE, PARITY_ODD, PARITY_EVEN, PARITY_MARK, PARITY_SPACE] ∧
      (set_parity PARITY_IGNORE demoState).2.world.trace
        = demoState.world.trace ++ [Call.tcgetattr demoState.sport_fd]) :=
  ⟨rfl, (set_parity_mark demoState 0 rfl).1, (set_parity_mark demoState 0 rfl).2.1,
    ⟨by decide, (set_parity_mark demoState 0 rfl).2.2.2.1 PARITY_EVEN (by decide)⟩,
    ⟨by decide, (set_parity_mark demoState 0 rfl).2.2.2.2 PARITY_IGNORE (by decide)⟩⟩

/-! ## Baud rate -/

theorem ultob_sub_cbaud (baud : Nat) : ultob baud &&& (CBAUD ||| CBAUDEX) = ultob baud := by
  by_cases h : baud ∈ supportedRates
  · simp only [supportedRates, List.mem_cons, List.mem_singleton, List.not_mem_nil,
      or_false] at h
    rcases h with h | h | h | h | h | h | h | h | h | h | h | h | h | h | h | h | h | h | h <;>
      subst h <;> decide
  · rw [ultob_not_mem baud h]
    decide

/-- Words that agree on a field have the same field. -/
theorem agree_and (a b n : Nat) (h : (a ^^^ b) &&& n = 0) : a &&& n = b &&& n := by
  apply Nat.eq_of_testBit_eq
  intro i
  have h1 := zero_bit h i
  simp only [Nat.testBit_xor] at h1
  simp only [Nat.testBit_and]
  cases hn : n.testBit i <;> cases ha : a.testBit i <;> cases hb : b.testBit i <;> simp_all

/-- Agreement on a mask gives agreement on each part of it. -/
theorem agree_sub (a b m k : Nat) (hk : k &&& m = k) (h : (a ^^^ b) &&& m = 0) :
    (a ^^^ b) &&& k = 0 := by
  apply Nat.eq_of_testBit_eq
  intro i
  have h1 := zero_bit h i
  have h2 := sub_bit hk i
  simp only [Nat.testBit_xor] at h1
  simp only [Nat.testBit_and, Nat.testBit_xor, Nat.zero_testBit]
  cases hki : k.testBit i <;> cases hm : m.testBit i <;> cases ha : a.testBit i <;>
    cases hb : b.testBit i <;> simp_all

/-- The control flags `set_baudrate` asks for: the speed bits rewritten, once or
twice. -/
theorem baudFn_cflag (baud : Nat) (cur : termios) :
    (baudFn baud cur).c_cflag = (cur.c_cflag &&& bnot (CBAUD ||| CBAUDEX)) ||| ultob baud ∨
    (baudFn baud cur).c_cflag =
      ((((cur.c_cflag &&& bnot (CBAUD ||| CBAUDEX)) ||| ultob baud)
        &&& bnot (CBAUD ||| CBAUDEX)) ||| ultob baud) := by
  simp only [baudFn, cfsetispeed, cfsetospeed, validSpeed_ultob, if_true]
  split_ifs
  · exact Or.inl rfl
  · exact Or.inr rfl

/-- The speed bits `set_baudrate` asks for hold the code of the rate. -/
theorem baud_cbaud (baud : Nat) (cur : termios) :
    (baudFn baud cur).c_cflag &&& (CBAUD ||| CBAUDEX) = ultob baud := by
  rcases baudFn_cflag baud cur with h | h <;> rw [h] <;>
    exact field_set _ (CBAUD ||| CBAUDEX) (ultob baud) (by decide) (ultob_sub_cbaud baud)

/-- Outside the speed bits `set_baudrate` asks for what the device holds. -/
theorem baud_agree (baud : Nat) (cur : termios) (n : Nat) (hn : n &&& FLAG_MAX = n)
    (hd : n &&& (CBAUD ||| CBAUDEX) = 0) :
    ((baudFn baud cur).c_cflag ^^^ cur.c_cflag) &&& n = 0 := by
  have hc : n &&& ultob baud = 0 := disj_of_sub n _ _ (ultob_sub_cbaud baud) hd
  rcases baudFn_cflag baud cur with h | h <;> rw [h]
  · exact agree_or _ _ _ _ hc (agree_clear _ _ _ _ hn hd (agree_refl _ _))
  · exact agree_or _ _ _ _ hc (agree_clear _ _ _ _ hn hd
      (agree_or _ _ _ _ hc (agree_clear _ _ _ _ hn hd (agree_refl _ _))))

/-- The rate 0 is always taken, and so is every rate the device can run at. -/
theorem baud_speedOk (dv : Device) (cur : termios) (baud : Nat)
    (h : ultob baud = B0 ∨ ultob baud ∉ dv.badSpeeds) :
    dv.speedOk (baudFn baud cur) = true := by
  unfold Device.speedOk
  rw [baud_cbaud]
  rcases h with h | h
  · simp [h]
  · simp [h]

/-- On every device the write of `set_baudrate` returns 0. -/
theorem baud_result (dv : Device) (cur : termios) (baud : Nat) :
    dv.result cur (baudFn baud cur) = 0 := by
  apply result_zero
  have ha := baud_agree baud cur CSIZE (by decide) (by decide)
  show select _ _ _ &&& CSIZE = _
  rw [select_and_agree _ _ _ _ ha, agree_and _ _ _ ha]

/-- On every device the write of `set_baudrate` leaves the fields outside the
speed bits as they were. -/
theorem baud_store_frame (dv : Device) (cur : termios) (baud : Nat) (n : Nat)
    (hn : n &&& FLAG_MAX = n) (hd : n &&& (CBAUD ||| CBAUDEX) = 0) :
    (dv.store cur (baudFn baud cur)).c_cflag &&& n = cur.c_cflag &&& n := by
  show select _ _ _ &&& n = _
  exact select_and_agree _ _ _ _ (baud_agree baud cur n hn hd)

/-- When the speed is taken the device holds the code of the rate. -/
theorem baud_store_cbaud (dv : Device) (cur : termios) (baud : Nat)
    (h : dv.speedOk (baudFn baud cur) = true) :
    (dv.store cur (baudFn baud cur)).c_cflag &&& (CBAUD ||| CBAUDEX) = ultob baud := by
  show select _ _ _ &&& (CBAUD ||| CBAUDEX) = _
  rw [select_and_disj _ _ _ _ (by rw [Nat.and_comm]; exact kept_cbaud dv _ h), baud_cbaud]

/-- The result of `set_baudrate` on an open terminal, whatever the device. -/
theorem set_baudrate_tty {s : State} {d : Nat} (baud : Nat)
    (h : s.world.ttyOf s.sport_fd = some d) :
    set_baudrate baud s = (0, s.wrote d (baudFn baud (s.world.attrs d))) := by
  rw [set_baudrate_gen baud h, baud_result]

/-- C11 as stated fails: on a serial port that cannot run at 230400, in line mode at
38400, `set_baudrate 230400` returns 0 and `get_baudrate` then returns 38400. -/
theorem baudrate_on_uart :
    (stateOn Device.uart16550).world.ttyOf (stateOn Device.uart16550).sport_fd = some 0 ∧
    230400 ∈ supportedRates ∧
    (set_baudrate 230400 (stateOn Device.uart16550)).1 = 0 ∧
    (get_baudrate (set_baudrate 230400 (stateOn Device.uart16550)).2).1 = 38400 := by
  refine ⟨by decide, by decide, by decide, by decide⟩

/-- C11, amended: on an open terminal, for a supported rate `r` (300 for one),
`set_baudrate r` returns 0, and `get_databits`, `get_parity` and `get_stopbits`
return what they returned before the call; `get_baudrate` then returns `r` when
`r` is not a rate the device cannot run at. -/
theorem set_baudrate_frame (s : State) (d r : Nat) (hr : r ∈ supportedRates)
    (hd : s.world.ttyOf s.sport_fd = some d) :
    (set_baudrate r s).1 = 0 ∧
    (ultob r ∉ (s.world.limits d).badSpeeds →
      (get_baudrate (set_baudrate r s).2).1 = (r : Int)) ∧
    (get_databits (set_baudrate r s).2).1 = (get_databits s).1 ∧
    (get_parity (set_baudrate r s).2).1 = (get_parity s).1 ∧
    (get_stopbits (set_baudrate r s).2).1 = (get_stopbits s).1 := by
  have h1 : (s.wrote d (baudFn r (s.world.attrs d))).world.ttyOf
      (s.wrote d (baudFn r (s.world.attrs d))).sport_fd = some d := hd
  rw [set_baudrate_tty r hd, get_baudrate_tty h1, get_databits_tty h1, get_parity_tty h1,
    get_stopbits_tty h1, get_databits_tty hd, get_parity_tty hd, get_stopbits_tty hd,
    wrote_attrs]
  simp only [baud_store_frame _ _ _ CSIZE (by decide) (by decide),
    baud_store_frame _ _ _ PARENB (by decide) (by decide),
    baud_store_frame _ _ _ PARODD (by decide) (by decide),
    baud_store_frame _ _ _ CSTOPB (by decide) (by decide)]
  refine ⟨trivial, ?_, trivial, trivial, trivial⟩
  intro hsp
  rw [baud_store_cbaud _ _ _ (baud_speedOk _ _ _ (Or.inr hsp))]
  exact congrArg Nat.cast (btoul_ultob r hr)

theorem set_baudrate_frame_witness :
    (300 ∈ supportedRates ∧ demoState.world.ttyOf demoState.sport_fd = some 0 ∧
      ultob 300 ∉ (demoState.world.limits 0).badSpeeds) ∧
    (set_baudrate 300 demoState).1 = 0 ∧
    (get_baudrate (set_baudrate 300 demoState).2).1 = (300 : Nat) :=
  ⟨⟨by decide, rfl, by decide⟩, (set_baudrate_frame demoState 0 300 (by decide) rfl).1,
    (set_baudrate_frame demoState 0 300 (by decide) rfl).2.1 (by decide)⟩

/-- The four getters, called one after the other on an open terminal, report what
the attributes of the device hold. -/
theorem getters_tty (s : State) (d : Nat) (h : s.world.ttyOf s.sport_fd = some d) :
    (get_baudrate s).1
      = ((btoul ((s.world.attrs d).c_cflag &&& (CBAUD ||| CBAUDEX)) : Nat) : Int) ∧
    (get_databits (get_baudrate s).2).1 = dataBitsOf (s.world.attrs d).c_cflag ∧
    (get_parity (get_databits (get_baudrate s).2).2).1 = parityOf (s.world.attrs d).c_cflag ∧
    (get_stopbits (get_parity (get_databits (get_baudrate s).2).2).2).1
      = stopBitsOf (s.world.attrs d).c_cflag := by
  have e1 := get_baudrate_tty h
  have h1 : ({ s.read with old_ios := s.world.attrs d } : State).world.ttyOf
      ({ s.read with old_ios := s.world.attrs d } : State).sport_fd = some d := h
  have e2 := get_databits_tty h1
  have h2 : ({ s.read with old_ios := s.world.attrs d } : State).read.world.ttyOf
      ({ s.read with old_ios := s.world.attrs d } : State).read.sport_fd = some d := h
  have e3 := get_parity_tty h2
  have h3 : ({ s.read with old_ios := s.world.attrs d } : State).read.read.world.ttyOf
      ({ s.read with old_ios := s.world.attrs d } : State).read.read.sport_fd = some d := h
  have e4 := get_stopbits_tty h3
  rw [e1]
  simp only []
  rw [e2]
  simp only []
  rw [e3]
  simp only []
  rw [e4]
  exact ⟨trivial, rfl, rfl, rfl⟩

theorem stopFn_cflag (sb : Nat) (t : termios) (m : Nat) (hm : m &&& FLAG_MAX = m)
    (hd : m &&& CSTOPB = 0) : (stopFn sb t).c_cflag &&& m = t.c_cflag &&& m := by
  unfold stopFn
  split_ifs
  · exact field_frame_clear _ CSTOPB m hm hd
  · exact field_frame_or _ CSTOPB m hd

theorem parityFn_csize (p : PARITY_T) (t : termios)
    (hp : p ∈ [PARITY_NONE, PARITY_ODD, PARITY_EVEN]) :
    (parityFn p t).c_cflag &&& CSIZE = t.c_cflag &&& CSIZE := by
  simp only [List.mem_cons, List.mem_singleton, List.not_mem_nil, or_false] at hp
  rcases hp with hp | hp | hp <;> subst hp
  · exact field_frame_clear _ PARENB CSIZE (by decide) (by decide)
  · show ((t.c_cflag ||| PARODD) ||| PARENB) &&& CSIZE = _
    rw [field_frame_or _ PARENB CSIZE (by decide), field_frame_or _ PARODD CSIZE (by decide)]
  · show ((t.c_cflag &&& bnot PARODD) ||| PARENB) &&& CSIZE = _
    rw [field_frame_or _ PARENB CSIZE (by decide),
      field_frame_clear _ PARODD CSIZE (by decide) (by decide)]

theorem parityOf_parityFn (p : PARITY_T) (t : termios)
    (hp : p ∈ [PARITY_NONE, PARITY_ODD, PARITY_EVEN]) :
    parityOf (parityFn p t).c_cflag = p := by
  simp only [List.mem_cons, List.mem_singleton, List.not_mem_nil, or_false] at hp
  rcases hp with hp | hp | hp <;> subst hp
  · exact parity_decode_none _
  · exact parity_decode_odd _
  · exact parity_decode_even _

theorem stopBitsOf_stopFn (sb : Nat) (t : termios) (hs : sb ∈ [1, 2]) :
    stopBitsOf (stopFn sb t).c_cflag = (sb : Int) := by
  simp only [List.mem_cons, List.mem_singleton, List.not_mem_nil, or_false] at hs
  rcases hs with hs | hs <;> subst hs
  · show (if (t.c_cflag &&& bnot CSTOPB) &&& CSTOPB ≠ 0 then 2 else 1 : Int) = _
    rw [clear_and_self _ CSTOPB (by decide)]
    simp
  · show (if (t.c_cflag ||| CSTOPB) &&& CSTOPB ≠ 0 then 2 else 1 : Int) = _
    rw [or_and_self]
    simp [CSTOPB]

theorem dataBitsOf_congr (c c' : Nat) (h : c &&& CSIZE = c' &&& CSIZE) :
    dataBitsOf c = dataBitsOf c' := by
  unfold dataBitsOf
  rw [h]

theorem parityOf_congr (c c' : Nat) (h1 : c &&& PARENB = c' &&& PARENB)
    (h2 : c &&& PARODD = c' &&& PARODD) : parityOf c = parityOf c' := by
  unfold parityOf
  rw [h1, h2]

theorem dataBitsOf_dataFn (d : Nat) (t : termios) (hd : d ∈ [5, 6, 7, 8]) :
    dataBitsOf (dataFn d t).c_cflag = (d : Int) :=
  databits_decode t.c_cflag d hd

theorem afterOpen_limits (port_name : List Char) (nblock : Bool) (s : State) :
    (afterOpen port_name nblock s).world.limits = s.world.limits := by
  simp only [afterOpen, os_open]
  split <;> rfl

/-- A device whose character size and parity can change takes the attributes
`sport_open` writes first as they are. -/
theorem raw_takes (dv : Device) (cur : termios) (hsz : dv.fixedSize = false)
    (hpar : dv.fixedParity = false) :
    dv.store cur (rawAttrs cur) = rawAttrs cur ∧ dv.result cur (rawAttrs cur) = 0 := by
  apply store_takes
  · show ((cur.c_iflag &&& bnot (IGNBRK ||| BRKINT ||| PARMRK ||| ISTRIP ||| INLCR ||| IGNCR
        ||| ICRNL ||| IXON) ||| ICRNL) ^^^ cur.c_iflag) &&& IBAUD0 = 0
    exact agree_or _ _ _ _ (by decide)
      (agree_clear _ _ _ _ (by decide) (by decide) (agree_refl _ _))
  · apply agree_sub _ _ (CBAUD ||| CBAUDEX) _ (kept_sub_cbaud dv _ hsz hpar)
    show (((((cur.c_cflag &&& bnot (CSIZE ||| PARENB)) ||| CS8) ||| (CREAD ||| CLOCAL))
        &&& bnot CRTSCTS) ^^^ cur.c_cflag) &&& (CBAUD ||| CBAUDEX) = 0
    exact agree_clear _ _ _ _ (by decide) (by decide)
      (agree_or _ _ _ _ (by decide) (agree_or _ _ _ _ (by decide)
        (agree_clear _ _ _ _ (by decide) (by decide) (agree_refl _ _))))
  · rfl
  · rfl
theorem set_stopbits_tty_fn {s : State} {d : Nat} (n : Nat)
    (h : s.world.ttyOf s.sport_fd = some d) (hn : n ∈ [1, 2]) :
    set_stopbits n s = (0, s.modify d (stopFn n)) := by
  simp only [List.mem_cons, List.mem_singleton, List.not_mem_nil, or_false] at hn
  rcases hn with hn | hn <;> subst hn
  · exact set_stopbits_one h
  · exact set_stopbits_two h

theorem parityFn_cflag (p : PARITY_T) (t : termios) (m : Nat) (hm : m &&& FLAG_MAX = m)
    (h1 : m &&& PARENB = 0) (h2 : m &&& PARODD = 0) :
    (parityFn p t).c_cflag &&& m = t.c_cflag &&& m := by
  unfold parityFn parity_switch
  split_ifs
  · exact field_frame_clear _ PARENB m hm h1
  · show ((t.c_cflag &&& bnot PARODD) ||| PARENB) &&& m = _
    rw [field_frame_or _ PARENB m h1, field_frame_clear _ PARODD m hm h2]
  · show ((t.c_cflag ||| PARODD) ||| PARENB) &&& m = _
    rw [field_frame_or _ PARENB m h1, field_frame_or _ PARODD m h2]
  · rfl
  · rfl
  · rfl

theorem dataFn_cflag (bits : Nat) (t : termios) (m : Nat) (hm : m &&& FLAG_MAX = m)
    (h0 : m &&& CSIZE = 0) (h6 : m &&& CS6 = 0) (h7 : m &&& CS7 = 0) (h8 : m &&& CS8 = 0) :
    (dataFn bits t).c_cflag &&& m = t.c_cflag &&& m := by
  show ((t.c_cflag &&& bnot CSIZE) ||| csMask bits) &&& m = _
  rw [field_frame_or _ _ m (disj_csMask m bits h6 h7 h8), field_frame_clear _ CSIZE m hm h0]

theorem set_databits_tty_fn {s : State} {d : Nat} (bits : Nat)
    (h : s.world.ttyOf s.sport_fd = some d) (hb : bits ∈ [5, 6, 7, 8])
    (hsz : (s.world.limits d).fixedSize = false) :
    set_databits bits s = (0, s.modify d (dataFn bits)) :=
  set_databits_tty bits h hb hsz

/-- What the four getters read from attributes whose speed code is that of `r`,
after the data bits, parity and stop bits have been written. -/
theorem final_attrs (r d : Nat) (p : PARITY_T) (sb : Nat) (t : termios)
    (hr : r ∈ supportedRates) (hd : d ∈ [5, 6, 7, 8])
    (hp : p ∈ [PARITY_NONE, PARITY_ODD, PARITY_EVEN]) (hs : sb ∈ [1, 2])
    (ht : t.c_cflag &&& (CBAUD ||| CBAUDEX) = ultob r) :
    btoul ((stopFn sb (parityFn p (dataFn d t))).c_cflag &&& (CBAUD ||| CBAUDEX)) = r ∧
    dataBitsOf (stopFn sb (parityFn p (dataFn d t))).c_cflag = (d : Int) ∧
    parityOf (stopFn sb (parityFn p (dataFn d t))).c_cflag = p ∧
    stopBitsOf (stopFn sb (parityFn p (dataFn d t))).c_cflag = (sb : Int) := by
  refine ⟨?_, ?_, ?_, ?_⟩
  · rw [stopFn_cflag sb _ (CBAUD ||| CBAUDEX) (by decide) (by decide),
      parityFn_cflag p _ (CBAUD ||| CBAUDEX) (by decide) (by decide) (by decide),
      dataFn_cflag d _ (CBAUD ||| CBAUDEX) (by decide) (by decide) (by decide) (by decide)
        (by decide), ht]
    exact btoul_ultob r hr
  · rw [dataBitsOf_congr _ _ (stopFn_cflag sb _ CSIZE (by decide) (by decide)),
      dataBitsOf_congr _ _ (parityFn_csize p _ hp)]
    exact dataBitsOf_dataFn d _ hd
  · rw [parityOf_congr _ _ (stopFn_cflag sb _ PARENB (by decide) (by decide))
      (stopFn_cflag sb _ PARODD (by decide) (by decide))]
    exact parityOf_parityFn p _ hp
  · exact stopBitsOf_stopFn sb _ hs

theorem sameHandle_trans {a b c : State} (h1 : SameHandle a b) (h2 : SameHandle b c) :
    SameHandle a c :=
  ⟨h2.1.trans h1.1, h2.2.1.trans h1.2.1, h2.2.2.trans h1.2.2⟩

theorem sameHandle_set_baudrate (baud : Nat) (s : State) :
    SameHandle s (set_baudrate baud s).2 := by
  cases h : s.world.ttyOf s.sport_fd with
  | none =>
    rw [set_baudrate_not_tty baud h]
    exact ⟨rfl, rfl, rfl⟩
  | some d =>
    rw [set_baudrate_tty baud h]
    exact ⟨rfl, rfl, rfl⟩

theorem sameHandle_set_databits (bits : Nat) (s : State) :
    SameHandle s (set_databits bits s).2 := by
  by_cases hb : bits ∈ [5, 6, 7, 8]
  · cases h : s.world.ttyOf s.sport_fd with
    | none =>
      rw [set_databits_not_tty bits h]
      exact ⟨rfl, rfl, rfl⟩
    | some d =>
      rw [set_databits_gen bits h hb]
      exact ⟨rfl, rfl, rfl⟩
  · rw [set_databits_invalid bits s hb]
    exact ⟨rfl, rfl, rfl⟩

theorem sameHandle_set_parity (p : PARITY_T) (s : State) :
    SameHandle s (set_parity p s).2 := by
  cases h : s.world.ttyOf s.sport_fd with
  | none =>
    rw [set_parity_not_tty p h]
    exact ⟨rfl, rfl, rfl⟩
  | some d =>
    rw [set_parity_tty p h]
    cases parity_switch p (s.world.attrs d) <;> exact ⟨rfl, rfl, rfl⟩

theorem sameHandle_set_stopbits (n : Nat) (s : State) :
    SameHandle s (set_stopbits n s).2 := by
  by_cases h1 : n = 1
  · subst h1
    cases h : s.world.ttyOf s.sport_fd with
    | none =>
      rw [set_stopbits_not_tty 1 h]
      exact ⟨rfl, rfl, rfl⟩
    | some d =>
      rw [set_stopbits_one_gen h]
      exact ⟨rfl, rfl, rfl⟩
  · by_cases h2 : n = 2
    · subst h2
      cases h : s.world.ttyOf s.sport_fd with
      | none =>
        rw [set_stopbits_not_tty 2 h]
        exact ⟨rfl, rfl, rfl⟩
      | some d =>
        rw [set_stopbits_two_gen h]
        exact ⟨rfl, rfl, rfl⟩
    · rw [set_stopbits_invalid n s h1 h2]
      exact ⟨rfl, rfl, rfl⟩

/-- The steps of `sport_open` once `open` has handed out a descriptor whose stored
value is terminal device `dev`: the write of `rawAttrs`, then the four setters. -/
theorem sport_open_steps (port_name : List Char) (r d : Nat) (p : PARITY_T) (sb : Nat)
    (nblock : Bool) (s : State) (dev : Nat)
    (hne : strlen port_name ≠ 0)
    (htty : (afterOpen port_name nblock s).world.ttyOf (afterOpen port_name nblock s).sport_fd
      = some dev) :
    sport_open port_name r d p sb nblock s =
      (if ((afterOpen port_name nblock s).world.limits dev).result
          ((afterOpen port_name nblock s).world.attrs dev)
          (rawAttrs ((afterOpen port_name nblock s).world.attrs dev)) ≠ 0 then
        (-1, rawState (afterOpen port_name nblock s) dev)
       else
        let r1 := set_baudrate r (rawState (afterOpen port_name nblock s) dev)
        if r1.1 ≠ 0 then (-1, r1.2)
        else
          let r2 := set_databits d r1.2
          if r2.1 ≠ 0 then (-1, r2.2)
          else
            let r3 := set_parity p r2.2
            if r3.1 ≠ 0 then (-1, r3.2)
            else
              let r4 := set_stopbits sb r3.2
              if r4.1 ≠ 0 then (-1, r4.2)
              else ((r4.2.sport_fd : Int), r4.2)) := by
  have hf := (ttyOf_eq_some _ _ _).1 htty
  simp only [afterOpen] at hf
  simp only [sport_open, hne, if_false, fd_ne_neg_one, tcgetattr, tcsetattr, World.ttyOf, hf,
    Option.map, rawState, afterOpen, rawAttrs, List.append_assoc, List.singleton_append,
    List.cons_append, List.nil_append, ne_eq]

/-! ## The outcome of `sport_open` on a terminal -/

theorem sameHandle_rawState (s : State) (d : Nat) : SameHandle s (rawState s d) :=
  ⟨rfl, rfl, rfl⟩

/-- Whatever `sport_open` returns for a non-empty name, the stored descriptor and
the descriptor table are those `open` left. -/
theorem sport_open_handle (port_name : List Char) (r d : Nat) (p : PARITY_T) (sb : Nat)
    (nblock : Bool) (s : State) (hne : strlen port_name ≠ 0) :
    SameHandle (afterOpen port_name nblock s) (sport_open port_name r d p sb nblock s).2 := by
  cases htty : (afterOpen port_name nblock s).world.ttyOf
      (afterOpen port_name nblock s).sport_fd with
  | none =>
    simp only [afterOpen] at htty
    simp only [sport_open, hne, if_false, fd_ne_neg_one, tcgetattr, htty, Option.map, afterOpen]
    exact ⟨rfl, rfl, rfl⟩
  | some dev =>
    have h0 := sameHandle_rawState (afterOpen port_name nblock s) dev
    have h1 := sameHandle_trans h0
      (sameHandle_set_baudrate r (rawState (afterOpen port_name nblock s) dev))
    have h2 := sameHandle_trans h1 (sameHandle_set_databits d
      (set_baudrate r (rawState (afterOpen port_name nblock s) dev)).2)
    have h3 := sameHandle_trans h2 (sameHandle_set_parity p (set_databits d
      (set_baudrate r (rawState (afterOpen port_name nblock s) dev)).2).2)
    have h4 := sameHandle_trans h3 (sameHandle_set_stopbits sb (set_parity p (set_databits d
      (set_baudrate r (rawState (afterOpen port_name nblock s) dev)).2).2).2)
    rw [sport_open_steps port_name r d p sb nblock s dev hne htty]
    simp only []
    split_ifs
    · exact h0
    · exact h1
    · exact h2
    · exact h3
    · exact h4
    · exact h4

theorem rawState_attrs (s : State) (d : Nat) (hsz : (s.world.limits d).fixedSize = false)
    (hpar : (s.world.limits d).fixedParity = false) :
    (rawState s d).world.attrs d = rawAttrs (s.world.attrs d) := by
  simp only [rawState, Function.update_same]
  exact (raw_takes _ _ hsz hpar).1

/-- The result and the state of `sport_open` when the stored descriptor is a
terminal device that lets the character size and the parity change and the four
parameters are accepted ones. -/
theorem sport_open_tty (port_name : List Char) (r d : Nat) (p : PARITY_T) (sb : Nat)
    (nblock : Bool) (s : State) (dev : Nat)
    (hne : strlen port_name ≠ 0)
    (htty : (afterOpen port_name nblock s).world.ttyOf (afterOpen port_name nblock s).sport_fd
      = some dev)
    (hsz : ((afterOpen port_name nblock s).world.limits dev).fixedSize = false)
    (hpar : ((afterOpen port_name nblock s).world.limits dev).fixedParity = false)
    (hd : d ∈ [5, 6, 7, 8]) (hp : p ∈ [PARITY_NONE, PARITY_ODD, PARITY_EVEN])
    (hs : sb ∈ [1, 2]) :
    sport_open port_name r d p sb nblock s =
      (((afterOpen port_name nblock s).sport_fd : Int),
       ((((rawState (afterOpen port_name nblock s) dev).wrote dev
          (baudFn r ((rawState (afterOpen port_name nblock s) dev).world.attrs dev))).modify dev
          (dataFn d)).modify dev (parityFn p)).modify dev (stopFn sb)) := by
  have hp4 : p ∈ [PARITY_NONE, PARITY_ODD, PARITY_EVEN, PARITY_SPACE] := by
    simp only [List.mem_cons, List.mem_singleton, List.not_mem_nil, or_false] at hp ⊢
    rcases hp with hp | hp | hp <;> simp [hp]
  have h3 : (rawState (afterOpen port_name nblock s) dev).world.ttyOf
      (rawState (afterOpen port_name nblock s) dev).sport_fd = some dev := htty
  have e1 := set_baudrate_tty r h3
  have h4 : ((rawState (afterOpen port_name nblock s) dev).wrote dev
      (baudFn r ((rawState (afterOpen port_name nblock s) dev).world.attrs dev))).world.ttyOf
      ((rawState (afterOpen port_name nblock s) dev).wrote dev
      (baudFn r ((rawState (afterOpen port_name nblock s) dev).world.attrs dev))).sport_fd
      = some dev := htty
  have e2 := set_databits_tty_fn d h4 hd hsz
  have h5 : (((rawState (afterOpen port_name nblock s) dev).wrote dev
      (baudFn r ((rawState (afterOpen port_name nblock s) dev).world.attrs dev))).modify dev
      (dataFn d)).world.ttyOf
      (((rawState (afterOpen port_name nblock s) dev).wrote dev
      (baudFn r ((rawState (afterOpen port_name nblock s) dev).world.attrs dev))).modify dev
      (dataFn d)).sport_fd = some dev := htty
  have e3 := set_parity_tty_fn p h5 hp4 hpar
  have h6 : ((((rawState (afterOpen port_name nblock s) dev).wrote dev
      (baudFn r ((rawState (afterOpen port_name nblock s) dev).world.attrs dev))).modify dev
      (dataFn d)).modify dev (parityFn p)).world.ttyOf
      ((((rawState (afterOpen port_name nblock s) dev).wrote dev
      (baudFn r ((rawState (afterOpen port_name nblock s) dev).world.attrs dev))).modify dev
      (dataFn d)).modify dev (parityFn p)).sport_fd = some dev := htty
  have e4 := set_stopbits_tty_fn sb h6 hs
  rw [sport_open_steps port_name r d p sb nblock s dev hne htty,
    (raw_takes _ _ hsz hpar).2]
  simp only []
  rw [e1]
  simp only []
  rw [e2]
  simp only []
  rw [e3]
  simp only []
  rw [e4]
  simp only [ne_eq, not_true_eq_false, if_false]
  rfl

/-- On a device that lets the character size and the parity change, a successful
`sport_open` returns the stored descriptor, and `old_ios` then holds the attributes
the device had before the call. -/
theorem sport_open_success (port_name : List Char) (r d : Nat) (p : PARITY_T) (sb : Nat)
    (nblock : Bool) (s : State) (dev : Nat)
    (hne : strlen port_name ≠ 0)
    (htty : (afterOpen port_name nblock s).world.ttyOf (afterOpen port_name nblock s).sport_fd
      = some dev)
    (hsz : (s.world.limits dev).fixedSize = false)
    (hpar : (s.world.limits dev).fixedParity = false)
    (hd : d ∈ [5, 6, 7, 8]) (hp : p ∈ [PARITY_NONE, PARITY_ODD, PARITY_EVEN])
    (hs : sb ∈ [1, 2]) :
    (sport_open port_name r d p sb nblock s).1
      = ((sport_open port_name r d p sb nblock s).2.sport_fd : Int) ∧
    (sport_open port_name r d p sb nblock s).2.old_ios = s.world.attrs dev := by
  rw [← afterOpen_limits port_name nblock s] at hsz hpar
  rw [sport_open_tty port_name r d p sb nblock s dev hne htty hsz hpar hd hp hs]
  refine ⟨rfl, ?_⟩
  show (afterOpen port_name nblock s).world.attrs dev = s.world.attrs dev
  rw [afterOpen_attrs]

/-- C10 as stated fails: on a pseudo-terminal `sport_open` with 9600, 5, odd, 1
succeeds and `get_databits` and `get_parity` then return 8 and `PARITY_NONE`; on a
serial port that cannot run at 230400 `sport_open` with 230400, 8, none, 1 succeeds
and `get_baudrate` then returns 38400. -/
theorem sport_open_on_limited_devices :
    (sport_open ['t', 't', 'y'] 9600 5 PARITY_ODD 1 true (stateOn Device.pty)).1 ≠ -1 ∧
    (get_databits (sport_open ['t', 't', 'y'] 9600 5 PARITY_ODD 1 true
      (stateOn Device.pty)).2).1 = 8 ∧
    (get_parity (sport_open ['t', 't', 'y'] 9600 5 PARITY_ODD 1 true
      (stateOn Device.pty)).2).1 = PARITY_NONE ∧
    230400 ∈ supportedRates ∧
    (sport_open ['t', 't', 'y'] 230400 8 PARITY_NONE 1 true
      (stateOn Device.uart16550)).1 ≠ -1 ∧
    (get_baudrate (sport_open ['t', 't', 'y'] 230400 8 PARITY_NONE 1 true
      (stateOn Device.uart16550)).2).1 = 38400 := by
  refine ⟨by decide, by decide, by decide, by decide, by decide, by decide⟩

/-- C10, amended: for a supported rate `r`, `d` in {5,6,7,8}, `p` one of
`PARITY_NONE`, `PARITY_ODD`, `PARITY_EVEN` and `sb` in {1,2}: when `sport_open` does
not return -1 and the terminal device `dev` behind the stored descriptor lets the
character size and the parity change and can run at `r`, the four getters called
one after the other return `r`, `d`, `p` and `sb`, and so does each of them when it
is the first to be called. -/
theorem sport_open_getters (port_name : List Char) (r d : Nat) (p : PARITY_T) (sb : Nat)
    (nblock : Bool) (s : State) (dev : Nat)
    (hr : r ∈ supportedRates) (hd : d ∈ [5, 6, 7, 8])
    (hp : p ∈ [PARITY_NONE, PARITY_ODD, PARITY_EVEN]) (hs : sb ∈ [1, 2])
    (hok : (sport_open port_name r d p sb nblock s).1 ≠ -1)
    (hdev : (sport_open port_name r d p sb nblock s).2.world.ttyOf
      (sport_open port_name r d p sb nblock s).2.sport_fd = some dev)
    (hsz : (s.world.limits dev).fixedSize = false)
    (hpar : (s.world.limits dev).fixedParity = false)
    (hspeed : ultob r ∉ (s.world.limits dev).badSpeeds) :
    (get_baudrate (sport_open port_name r d p sb nblock s).2).1 = (r : Int) ∧
    (get_databits (get_baudrate (sport_open port_name r d p sb nblock s).2).2).1 = (d : Int) ∧
    (get_parity (get_databits
      (get_baudrate (sport_open port_name r d p sb nblock s).2).2).2).1 = p ∧
    (get_stopbits (get_parity (get_databits
      (get_baudrate (sport_open port_name r d p sb nblock s).2).2).2).2).1 = (sb : Int) ∧
    (get_databits (sport_open port_name r d p sb nblock s).2).1 = (d : Int) ∧
    (get_parity (sport_open port_name r d p sb nblock s).2).1 = p ∧
    (get_stopbits (sport_open port_name r d p sb nblock s).2).1 = (sb : Int) := by
  by_cases hne : strlen port_name = 0
  · exact absurd (by simp [sport_open, hne]) hok
  · have hh := sport_open_handle port_name r d p sb nblock s hne
    have htty : (afterOpen port_name nblock s).world.ttyOf
        (afterOpen port_name nblock s).sport_fd = some dev := by
      rw [ttyOf_eq_some] at hdev ⊢
      rw [← hh.1, ← hh.2.1]
      exact hdev
    rw [← afterOpen_limits port_name nblock s] at hsz hpar hspeed
    have hS : (((((rawState (afterOpen port_name nblock s) dev).wrote dev
        (baudFn r ((rawState (afterOpen port_name nblock s) dev).world.attrs dev))).modify
        dev (dataFn d)).modify dev (parityFn p)).modify dev (stopFn sb)).world.ttyOf
        (((((rawState (afterOpen port_name nblock s) dev).wrote dev
        (baudFn r ((rawState (afterOpen port_name nblock s) dev).world.attrs dev))).modify
        dev (dataFn d)).modify dev (parityFn p)).modify dev (stopFn sb)).sport_fd
        = some dev := htty
    have g := getters_tty _ dev hS
    have g2 := get_databits_tty hS
    have g3 := get_parity_tty hS
    have g4 := get_stopbits_tty hS
    simp only [modify_attrs, wrote_attrs] at g g2 g3 g4
    have hX := baud_store_cbaud ((afterOpen port_name nblock s).world.limits dev)
      ((rawState (afterOpen port_name nblock s) dev).world.attrs dev) r
      (baud_speedOk _ _ r (Or.inr hspeed))
    obtain ⟨f1, f2, f3, f4⟩ := final_attrs r d p sb _ hr hd hp hs hX
    rw [sport_open_tty port_name r d p sb nblock s dev hne htty hsz hpar hd hp hs]
    simp only []
    rw [g2, g3, g4]
    refine ⟨?_, ?_, ?_, ?_, f2, f3, f4⟩
    · rw [g.1]
      exact congrArg _ f1
    · rw [g.2.1]
      exact f2
    · rw [g.2.2.1]
      exact f3
    · rw [g.2.2.2]
      exact f4

theorem sport_open_getters_witness :
    (9600 ∈ supportedRates ∧ (8 : Nat) ∈ [5, 6, 7, 8] ∧
      PARITY_NONE ∈ [PARITY_NONE, PARITY_ODD, PARITY_EVEN] ∧ (1 : Nat) ∈ [1, 2] ∧
      (sport_open ['t', 't', 'y'] 9600 8 PARITY_NONE 1 true demoState).1 ≠ -1 ∧
      (sport_open ['t', 't', 'y'] 9600 8 PARITY_NONE 1 true demoState).2.world.ttyOf
        (sport_open ['t', 't', 'y'] 9600 8 PARITY_NONE 1 true demoState).2.sport_fd = some 0 ∧
      (demoState.world.limits 0).fixedSize = false ∧
      (demoState.world.limits 0).fixedParity = false ∧
      ultob 9600 ∉ (demoState.world.limits 0).badSpeeds) ∧
    (get_baudrate (sport_open ['t', 't', 'y'] 9600 8 PARITY_NONE 1 true demoState).2).1
      = (9600 : Nat) ∧
    (get_databits (sport_open ['t', 't', 'y'] 9600 8 PARITY_NONE 1 true demoState).2).1
      = (8 : Nat) ∧
    (get_parity (sport_open ['t', 't', 'y'] 9600 8 PARITY_NONE 1 true demoState).2).1
      = PARITY_NONE ∧
    (get_stopbits (sport_open ['t', 't', 'y'] 9600 8 PARITY_NONE 1 true demoState).2).1
      = (1 : Nat) :=
  ⟨⟨by decide, by decide, by decide, by decide, by decide, by decide, by decide, by decide,
      by decide⟩,
    (sport_open_getters ['t', 't', 'y'] 9600 8 PARITY_NONE 1 true demoState 0
      (by decide) (by decide) (by decide) (by decide) (by decide) (by decide) (by decide)
      (by decide) (by decide)).1,
    (sport_open_getters ['t', 't', 'y'] 9600 8 PARITY_NONE 1 true demoState 0
      (by decide) (by decide) (by decide) (by decide) (by decide) (by decide) (by decide)
      (by decide) (by decide)).2.2.2.2.1,
    (sport_open_getters ['t', 't', 'y'] 9600 8 PARITY_NONE 1 true demoState 0
      (by decide) (by decide) (by decide) (by decide) (by decide) (by decide) (by decide)
      (by decide) (by decide)).2.2.2.2.2.1,
    (sport_open_getters ['t', 't', 'y'] 9600 8 PARITY_NONE 1 true demoState 0
      (by decide) (by decide) (by decide) (by decide) (by decide) (by decide) (by decide)
      (by decide) (by decide)).2.2.2.2.2.2⟩

/-! ## Calls without an open port, a failed `open`, and the saved attributes -/

/-- C15 fails on the code: at program start `sport_fd` is 0, the test
`sport_fd == -1` is false, and in a process whose descriptor 0 is a terminal
`set_baudrate 9600` returns 0 and changes the output speed of that terminal from
`B0` to `B9600`; `set_databits`, `set_parity`, `set_stopbits` return 0 too, and
`get_databits` and `get_stopbits` return 5 and 1, not an error. -/
theorem set_baudrate_before_open :
    (set_baudrate 9600 (initState stdinWorld)).1 = 0 ∧
    ((initState stdinWorld).world.attrs 0).c_ospeed = B0 ∧
    ((set_baudrate 9600 (initState stdinWorld)).2.world.attrs 0).c_ospeed = B9600 ∧
    (set_databits 8 (initState stdinWorld)).1 = 0 ∧
    (set_parity PARITY_EVEN (initState stdinWorld)).1 = 0 ∧
    (set_stopbits 2 (initState stdinWorld)).1 = 0 ∧
    (get_databits (initState stdinWorld)).1 = 5 ∧
    (get_stopbits (initState stdinWorld)).1 = 1 := by
  refine ⟨by decide, by decide, by decide, by decide, by decide, by decide, by decide, by decide⟩

/-- C16 fails on the code: when `open` returns -1 the `uint8_t` variable `sport_fd`
holds 255 and the test `sport_fd == -1` is false; in a process whose descriptor
255 is a terminal `sport_open` goes on, rewrites the attributes of that terminal
and returns 255. -/
theorem sport_open_after_failed_open :
    strlen ['t', 't', 'y'] ≠ 0 ∧
    (os_open ['t', 't', 'y'] (O_RDWR ||| O_NOCTTY) fd255World).1 = -1 ∧
    (sport_open ['t', 't', 'y'] 9600 8 PARITY_NONE 1 true (initState fd255World)).1 = 255 ∧
    (sport_open ['t', 't', 'y'] 9600 8 PARITY_NONE 1 true (initState fd255World)).2.sport_fd
      = 255 ∧
    (sport_open ['t', 't', 'y'] 9600 8 PARITY_NONE 1 true
      (initState fd255World)).2.world.attrs 0 ≠ fd255World.attrs 0 := by
  refine ⟨by decide, by decide, by decide, by decide, by decide⟩

/-- C19 fails on the code: after a successful `sport_open` (result 4) `old_ios`
holds the attributes the device had at open time, and one call of `get_baudrate`
replaces them with the current attributes of the device. -/
theorem get_baudrate_overwrites_old_ios :
    (sport_open ['t', 't', 'y'] 9600 8 PARITY_NONE 1 true demoState).1 = 4 ∧
    (sport_open ['t', 't', 'y'] 9600 8 PARITY_NONE 1 true demoState).2.old_ios
      = demoState.world.attrs 0 ∧
    (get_baudrate (sport_open ['t', 't', 'y'] 9600 8 PARITY_NONE 1 true demoState).2).2.old_ios
      ≠ demoState.world.attrs 0 ∧
    (get_baudrate (sport_open ['t', 't', 'y'] 9600 8 PARITY_NONE 1 true demoState).2).2.old_ios
      = (sport_open ['t', 't', 'y'] 9600 8 PARITY_NONE 1 true demoState).2.world.attrs 0 := by
  refine ⟨by decide, by decide, by decide, by decide⟩

/-! ## A descriptor that does not fit the stored handle -/

/-- C17 fails on the code: when `open` returns descriptor 300 for the serial
device (device 1) the `uint8_t` variable `sport_fd` holds 44; with descriptor 44
open on another terminal (device 0) the initial attribute read and write succeed,
and with 9 data bits `set_databits` fails: `sport_open` returns -1 and makes no
`close`, but the stored handle refers to device 0, not to the opened device, which
has none of the parameters applied, while device 0 has been put in raw mode at
9600. -/
theorem sport_open_failure_wrong_device :
    (os_open ['t', 't', 'y'] (O_RDWR ||| O_NOCTTY) manyFilesWorld).1 = 300 ∧
    (sport_open ['t', 't', 'y'] 9600 9 PARITY_NONE 1 true (initState manyFilesWorld)).1 = -1 ∧
    (sport_open ['t', 't', 'y'] 9600 9 PARITY_NONE 1 true
      (initState manyFilesWorld)).2.world.trace.all (fun c => !Call.isClose c) = true ∧
    (sport_open ['t', 't', 'y'] 9600 9 PARITY_NONE 1 true
      (initState manyFilesWorld)).2.sport_fd = 44 ∧
    (sport_open ['t', 't', 'y'] 9600 9 PARITY_NONE 1 true
      (initState manyFilesWorld)).2.world.fdtab 300 = some (File.tty 1) ∧
    (sport_open ['t', 't', 'y'] 9600 9 PARITY_NONE 1 true
      (initState manyFilesWorld)).2.world.fdtab 44 = some (File.tty 0) ∧
    (sport_open ['t', 't', 'y'] 9600 9 PARITY_NONE 1 true
      (initState manyFilesWorld)).2.world.attrs 1 = cookedAttrs ∧
    cfgetospeed ((sport_open ['t', 't', 'y'] 9600 9 PARITY_NONE 1 true
      (initState manyFilesWorld)).2.world.attrs 0) = B9600 ∧
    ((sport_open ['t', 't', 'y'] 9600 9 PARITY_NONE 1 true
      (initState manyFilesWorld)).2.world.attrs 0).c_lflag &&& ICANON = 0 := by
  refine ⟨by decide, by decide, by decide, by decide, by decide, by decide, by decide,
    by decide, by decide⟩

/-- C18 fails on the code: when `open` returns descriptor 300 for the serial
device (device 1) and descriptor 44 is another terminal (device 0), `sport_open`
with 9600, 8, none, 1 succeeds (it returns 44) and the opened device is as it
was, with `ICANON`, `ECHO`, `ISIG` and `OPOST` set and `CLOCAL` clear; it is device
0 that has been put in raw mode. -/
theorem sport_open_raw_wrong_device :
    (os_open ['t', 't', 'y'] (O_RDWR ||| O_NOCTTY) manyFilesWorld).1 = 300 ∧
    (sport_open ['t', 't', 'y'] 9600 8 PARITY_NONE 1 true (initState manyFilesWorld)).1 = 44 ∧
    (sport_open ['t', 't', 'y'] 9600 8 PARITY_NONE 1 true
      (initState manyFilesWorld)).2.world.fdtab 300 = some (File.tty 1) ∧
    (sport_open ['t', 't', 'y'] 9600 8 PARITY_NONE 1 true
      (initState manyFilesWorld)).2.world.attrs 1 = cookedAttrs ∧
    cookedAttrs.c_lflag &&& ICANON = ICANON ∧ cookedAttrs.c_lflag &&& ECHO = ECHO ∧
    cookedAttrs.c_lflag &&& ISIG = ISIG ∧ cookedAttrs.c_oflag &&& OPOST = OPOST ∧
    cookedAttrs.c_cflag &&& CLOCAL = 0 ∧
    ((sport_open ['t', 't', 'y'] 9600 8 PARITY_NONE 1 true
      (initState manyFilesWorld)).2.world.attrs 0).c_lflag &&& ICANON = 0 := by
  refine ⟨by decide, by decide, by decide, by decide, by decide, by decide, by decide,
    by decide, by decide, by decide⟩

end Serport
